import Mathlib

/-!
Verification of FreeRDP's color conversion and raster-blitting engine
(`libfreerdp/codec/color.c`).

Shallow embedding conventions:
* `UINT32` values are `Nat`; arithmetic that cannot overflow in the source is
  kept as plain `Nat` arithmetic, and `(BYTE)` casts are `% 256`.
* Byte buffers are total maps from addresses to byte values; pointers are
  integer base addresses where aliasing matters and implicit zero bases for
  `WINPR_RESTRICT` (non-aliasing) buffers.
* Functions declared in FreeRDP headers rather than in `color.c`
  (pixel-format descriptor lookups, `FreeRDPReadColor_int`,
  `FreeRDPWriteColor_int`, `FreeRDPWriteColorIgnoreAlpha_int`,
  `FreeRDPConvertColor`, the pluggable `copy_no_overlap` backend) are
  modelled from the specification; each such definition carries a
  `Modelled from the spec:` doc comment.
-/

namespace FreeRDPColor

/-- The closed enumeration of pixel formats named in `color.c`
(`FreeRDPGetColorFormatName` lists exactly these). -/
inductive PixelFormat where
  | ARGB32 | XRGB32 | ABGR32 | XBGR32
  | RGBA32 | RGBX32 | BGRA32 | BGRX32
  | BGRX32_DEPTH30 | RGBX32_DEPTH30
  | RGB24 | BGR24
  | RGB16 | BGR16
  | ARGB15 | RGB15 | ABGR15 | BGR15
  | RGB8 | A4 | MONO
deriving DecidableEq

/-- Modelled from the spec: every descriptor maps deterministically to its
bits-per-pixel (`FreeRDPGetBitsPerPixel`, defined in the `color.h` header,
not in `color.c`). -/
def FreeRDPGetBitsPerPixel : PixelFormat → Nat
  | .ARGB32 | .XRGB32 | .ABGR32 | .XBGR32
  | .RGBA32 | .RGBX32 | .BGRA32 | .BGRX32
  | .BGRX32_DEPTH30 | .RGBX32_DEPTH30 => 32
  | .RGB24 | .BGR24 => 24
  | .RGB16 | .BGR16 | .ARGB15 | .ABGR15 => 16
  | .RGB15 | .BGR15 => 15
  | .RGB8 => 8
  | .A4 => 4
  | .MONO => 1

/-- Modelled from the spec: bytes-per-pixel of each descriptor
(`FreeRDPGetBytesPerPixel`, defined in the `color.h` header). -/
def FreeRDPGetBytesPerPixel (f : PixelFormat) : Nat :=
  (FreeRDPGetBitsPerPixel f + 7) / 8

/-- Modelled from the spec: whether a descriptor carries an alpha channel
(`FreeRDPColorHasAlpha`, defined in the `color.h` header); exactly the
formats with an `A` channel in their layout. -/
def FreeRDPColorHasAlpha : PixelFormat → Bool
  | .ARGB32 | .ABGR32 | .RGBA32 | .BGRA32 | .ARGB15 | .ABGR15 => true
  | _ => false

/-- Modelled from the spec: `FreeRDPAreColorFormatsEqualNoAlpha_int`
(defined in the `color.h` header): true iff channel layout and bit depth
match regardless of alpha presence.  The alpha-carrying 32-bit formats pair
with their `X` variants; the 16-bit `ARGB15`/`ABGR15` formats do NOT pair
with the 15-bit `RGB15`/`BGR15` ones because their bit depths (16 vs 15)
differ. -/
def FreeRDPAreColorFormatsEqualNoAlpha_int (a b : PixelFormat) : Bool :=
  let classOf : PixelFormat → Nat := fun f =>
    match f with
    | .ARGB32 | .XRGB32 => 0
    | .ABGR32 | .XBGR32 => 1
    | .RGBA32 | .RGBX32 => 2
    | .BGRA32 | .BGRX32 => 3
    | .BGRX32_DEPTH30 => 4
    | .RGBX32_DEPTH30 => 5
    | .RGB24 => 6
    | .BGR24 => 7
    | .RGB16 => 8
    | .BGR16 => 9
    | .ARGB15 => 10
    | .RGB15 => 11
    | .ABGR15 => 12
    | .BGR15 => 13
    | .RGB8 => 14
    | .A4 => 15
    | .MONO => 16
  classOf a = classOf b

/-- The canonical (r, g, b, a) byte quadruple produced by `FreeRDPSplitColor`. -/
structure RGBA where
  r : Nat
  g : Nat
  b : Nat
  a : Nat
deriving DecidableEq

/-- The `gdiPalette` struct: a pixel format plus 256 palette entries
(index to packed `UINT32` color). -/
structure gdiPalette where
  format : PixelFormat
  palette : Nat → Nat

/-- The `(BYTE)` cast of C: truncation to the low 8 bits. -/
def byte (x : Nat) : Nat := x % 256

/-- `FreeRDPGetColor` (color.c lines 1512-1602): packs a canonical color into
the bit layout of `format`.  `r g b a` are the `BYTE` arguments (callers pass
values below 256); `0` is returned for the indexed/mono formats exactly as in
the source's default branch. -/
def FreeRDPGetColor (format : PixelFormat) (r g b a : Nat) : Nat :=
  match format with
  | .ARGB32 => (a <<< 24) ||| (r <<< 16) ||| (g <<< 8) ||| b
  | .XRGB32 => (r <<< 16) ||| (g <<< 8) ||| b
  | .ABGR32 => (a <<< 24) ||| (b <<< 16) ||| (g <<< 8) ||| r
  | .XBGR32 => (b <<< 16) ||| (g <<< 8) ||| r
  | .RGBA32 => (r <<< 24) ||| (g <<< 16) ||| (b <<< 8) ||| a
  | .RGBX32 => (r <<< 24) ||| (g <<< 16) ||| (b <<< 8) ||| a
  | .BGRA32 => (b <<< 24) ||| (g <<< 16) ||| (r <<< 8) ||| a
  | .BGRX32 => (b <<< 24) ||| (g <<< 16) ||| (r <<< 8) ||| a
  | .RGBX32_DEPTH30 =>
      let t := (r <<< 22) ||| (g <<< 12) ||| (b <<< 2)
      ((t &&& 0xff) <<< 24) ||| (((t >>> 8) &&& 0xff) <<< 16) |||
        (((t >>> 16) &&& 0xff) <<< 8) ||| (t >>> 24)
  | .BGRX32_DEPTH30 =>
      let t := (r <<< 22) ||| (g <<< 12) ||| (b <<< 2)
      ((t &&& 0xff) <<< 24) ||| (((t >>> 8) &&& 0xff) <<< 16) |||
        (((t >>> 16) &&& 0xff) <<< 8) ||| (t >>> 24)
  | .RGB24 => (r <<< 16) ||| (g <<< 8) ||| b
  | .BGR24 => (b <<< 16) ||| (g <<< 8) ||| r
  | .RGB16 => (((r >>> 3) &&& 0x1F) <<< 11) ||| (((g >>> 2) &&& 0x3F) <<< 5) ||| ((b >>> 3) &&& 0x1F)
  | .BGR16 => (((b >>> 3) &&& 0x1F) <<< 11) ||| (((g >>> 2) &&& 0x3F) <<< 5) ||| ((r >>> 3) &&& 0x1F)
  | .ARGB15 =>
      (((r >>> 3) &&& 0x1F) <<< 10) ||| (((g >>> 3) &&& 0x1F) <<< 5) ||| ((b >>> 3) &&& 0x1F) |||
        (if a ≠ 0 then 0x8000 else 0x0000)
  | .ABGR15 =>
      (((b >>> 3) &&& 0x1F) <<< 10) ||| (((g >>> 3) &&& 0x1F) <<< 5) ||| ((r >>> 3) &&& 0x1F) |||
        (if a ≠ 0 then 0x8000 else 0x0000)
  | .RGB15 => (((r >>> 3) &&& 0x1F) <<< 10) ||| (((g >>> 3) &&& 0x1F) <<< 5) ||| ((b >>> 3) &&& 0x1F)
  | .BGR15 => (((b >>> 3) &&& 0x1F) <<< 10) ||| (((g >>> 3) &&& 0x1F) <<< 5) ||| ((r >>> 3) &&& 0x1F)
  | .RGB8 => 0
  | .A4 => 0
  | .MONO => 0

/-- `FreeRDPSplitColor` (color.c lines 1114-1495) for the recursive call
with a `NULL` palette (the source's `PIXEL_FORMAT_RGB8` branch recurses with
`palette = NULL`; reaching `RGB8` here would dereference that null pointer,
which is undefined behaviour in the source and is modelled as the zero
quadruple, the same value the `default` branch produces).  All `BYTE` stores
through the `_r _g _b _a` out-pointers become the four fields of `RGBA`. -/
def FreeRDPSplitColorNull (color : Nat) (format : PixelFormat) : RGBA :=
  match format with
  | .ARGB32 => ⟨byte (color >>> 16), byte (color >>> 8), byte color, byte (color >>> 24)⟩
  | .XRGB32 => ⟨byte (color >>> 16), byte (color >>> 8), byte color, 0xFF⟩
  | .ABGR32 => ⟨byte color, byte (color >>> 8), byte (color >>> 16), byte (color >>> 24)⟩
  | .XBGR32 => ⟨byte color, byte (color >>> 8), byte (color >>> 16), 0xFF⟩
  | .RGBA32 => ⟨byte (color >>> 24), byte (color >>> 16), byte (color >>> 8), byte color⟩
  | .RGBX32 => ⟨byte (color >>> 24), byte (color >>> 16), byte (color >>> 8), 0xFF⟩
  | .BGRA32 => ⟨byte (color >>> 8), byte (color >>> 16), byte (color >>> 24), byte color⟩
  | .BGRX32 => ⟨byte (color >>> 8), byte (color >>> 16), byte (color >>> 24), 0xFF⟩
  | .RGB24 => ⟨byte (color >>> 16), byte (color >>> 8), byte color, 0xFF⟩
  | .BGR24 => ⟨byte color, byte (color >>> 8), byte (color >>> 16), 0xFF⟩
  | .RGB16 =>
      let cr := (color >>> 11) &&& 0x1F
      let vr := (cr <<< 3) + cr / 4
      let cg := (color >>> 5) &&& 0x3F
      let vg := (cg <<< 2) + cg / 4 / 2
      let cb := color &&& 0x1F
      let vb := (cb <<< 3) + cb / 4
      ⟨byte (if vr > 255 then 255 else vr), byte (if vg > 255 then 255 else vg),
       byte (if vb > 255 then 255 else vb), 0xFF⟩
  | .BGR16 =>
      let cr := color &&& 0x1F
      let vr := (cr <<< 3) + cr / 4
      let cg := (color >>> 5) &&& 0x3F
      let vg := (cg <<< 2) + cg / 4 / 2
      let cb := (color >>> 11) &&& 0x1F
      let vb := (cb <<< 3) + cb / 4
      ⟨byte (if vr > 255 then 255 else vr), byte (if vg > 255 then 255 else vg),
       byte (if vb > 255 then 255 else vb), 0xFF⟩
  | .ARGB15 =>
      let cr := (color >>> 10) &&& 0x1F
      let vr := (cr <<< 3) + cr / 4
      let cg := (color >>> 5) &&& 0x1F
      let vg := (cg <<< 3) + cg / 4
      let cb := color &&& 0x1F
      let vb := (cb <<< 3) + cb / 4
      ⟨byte (if vr > 255 then 255 else vr), byte (if vg > 255 then 255 else vg),
       byte (if vb > 255 then 255 else vb), if color &&& 0x8000 ≠ 0 then 0xFF else 0x00⟩
  | .ABGR15 =>
      let cr := color &&& 0x1F
      let vr := (cr <<< 3) + cr / 4
      let cg := (color >>> 5) &&& 0x1F
      let vg := (cg <<< 3) + cg / 4
      let cb := (color >>> 10) &&& 0x1F
      let vb := (cb <<< 3) + cb / 4
      ⟨byte (if vr > 255 then 255 else vr), byte (if vg > 255 then 255 else vg),
       byte (if vb > 255 then 255 else vb), if color &&& 0x8000 ≠ 0 then 0xFF else 0x00⟩
  | .RGB15 =>
      let cr := (color >>> 10) &&& 0x1F
      let vr := (cr <<< 3) + cr / 4
      let cg := (color >>> 5) &&& 0x1F
      let vg := (cg <<< 3) + cg / 4
      let cb := color &&& 0x1F
      let vb := (cb <<< 3) + cb / 4
      ⟨byte (if vr > 255 then 255 else vr), byte (if vg > 255 then 255 else vg),
       byte (if vb > 255 then 255 else vb), 0xFF⟩
  | .BGR15 =>
      let cr := color &&& 0x1F
      let vr := (cr <<< 3) + cr / 4
      let cg := (color >>> 5) &&& 0x1F
      let vg := (cg <<< 3) + cg / 4
      let cb := (color >>> 10) &&& 0x1F
      let vb := (cb <<< 3) + cb / 4
      ⟨byte (if vr > 255 then 255 else vr), byte (if vg > 255 then 255 else vg),
       byte (if vb > 255 then 255 else vb), 0xFF⟩
  | .MONO =>
      ⟨if color ≠ 0 then 0xFF else 0x00, if color ≠ 0 then 0xFF else 0x00,
       if color ≠ 0 then 0xFF else 0x00, if color ≠ 0 then 0xFF else 0x00⟩
  | .RGB8 => ⟨0, 0, 0, 0⟩
  | .A4 => ⟨0, 0, 0, 0⟩
  | .BGRX32_DEPTH30 => ⟨0, 0, 0, 0⟩
  | .RGBX32_DEPTH30 => ⟨0, 0, 0, 0⟩

/-- `FreeRDPSplitColor` (color.c lines 1114-1495): the top-level entry with
an optional palette.  The `PIXEL_FORMAT_RGB8` branch resolves the index
through the palette and recursively splits the palette's own color with a
`NULL` palette, exactly as the source does. -/
def FreeRDPSplitColor (color : Nat) (format : PixelFormat)
    (palette : Option gdiPalette) : RGBA :=
  match format, palette with
  | .RGB8, some p =>
      if color ≤ 0xFF then FreeRDPSplitColorNull (p.palette color) p.format
      else ⟨0, 0, 0, 0⟩
  | .RGB8, none => ⟨0, 0, 0, 0⟩
  | f, _ => FreeRDPSplitColorNull color f

/-- Modelled from the spec: `FreeRDPConvertColor` (defined in the `color.h`
header) is `getColor(dstFormat, *splitColor(color, srcFormat, palette))`;
the two-step path through the canonical tuple is the only conversion path. -/
def FreeRDPConvertColor (color : Nat) (srcFormat dstFormat : PixelFormat)
    (palette : Option gdiPalette) : Nat :=
  let c := FreeRDPSplitColor color srcFormat palette
  FreeRDPGetColor dstFormat c.r c.g c.b c.a

/-- `overlapping` (color.c lines 552-571): the Region Copy Engine's overlap
test over raw byte addresses (pointers are embedded as integer addresses;
`nWidth` is unused, as in the source's `WINPR_UNUSED(nWidth)`). -/
def overlapping (pDstData : Int) (nXDst nYDst nDstStep dstBytesPerPixel : Nat)
    (pSrcData : Int) (nXSrc nYSrc nSrcStep srcBytesPerPixel : Nat)
    (nWidth nHeight : Nat) : Bool :=
  let pDstStart : Int := pDstData + nXDst * dstBytesPerPixel + nYDst * nDstStep
  let pDstEnd : Int := pDstStart + nHeight * nDstStep
  let pSrcStart : Int := pSrcData + nXSrc * srcBytesPerPixel + nYSrc * nSrcStep
  let pSrcEnd : Int := pSrcStart + nHeight * nSrcStep
  let _ := nWidth
  if pDstStart ≥ pSrcStart ∧ pDstStart ≤ pSrcEnd then true
  else if pDstEnd ≥ pSrcStart ∧ pDstEnd ≤ pSrcEnd then true
  else false

/-! ### Bit-arithmetic helper lemmas -/

theorem lor_eq_add_of_lt (n a b : Nat) (ha : a % 2 ^ n = 0) (hb : b < 2 ^ n) :
    a ||| b = a + b := by
  obtain ⟨c, hc⟩ := Nat.dvd_of_mod_eq_zero ha
  subst hc
  exact (Nat.mul_add_lt_is_or hb c).symm

theorem pack32 (x y z w : Nat) (hy : y < 256) (hz : z < 256) (hw : w < 256) :
    (x <<< 24) ||| (y <<< 16) ||| (z <<< 8) ||| w =
      x * 2 ^ 24 + y * 2 ^ 16 + z * 2 ^ 8 + w := by
  simp only [Nat.shiftLeft_eq]
  rw [lor_eq_add_of_lt 24 (x * 2 ^ 24) (y * 2 ^ 16) (by omega) (by omega),
      lor_eq_add_of_lt 16 (x * 2 ^ 24 + y * 2 ^ 16) (z * 2 ^ 8) (by omega) (by omega),
      lor_eq_add_of_lt 8 (x * 2 ^ 24 + y * 2 ^ 16 + z * 2 ^ 8) w (by omega) hw]

theorem pack24 (x y z : Nat) (hy : y < 256) (hz : z < 256) :
    (x <<< 16) ||| (y <<< 8) ||| z = x * 2 ^ 16 + y * 2 ^ 8 + z := by
  simp only [Nat.shiftLeft_eq]
  rw [lor_eq_add_of_lt 16 (x * 2 ^ 16) (y * 2 ^ 8) (by omega) (by omega),
      lor_eq_add_of_lt 8 (x * 2 ^ 16 + y * 2 ^ 8) z (by omega) hz]

theorem pack655 (x y z : Nat) (hy : y < 64) (hz : z < 32) :
    (x <<< 11) ||| (y <<< 5) ||| z = x * 2 ^ 11 + y * 2 ^ 5 + z := by
  simp only [Nat.shiftLeft_eq]
  rw [lor_eq_add_of_lt 11 (x * 2 ^ 11) (y * 2 ^ 5) (by omega) (by omega),
      lor_eq_add_of_lt 5 (x * 2 ^ 11 + y * 2 ^ 5) z (by omega) hz]

theorem pack555 (x y z : Nat) (hy : y < 32) (hz : z < 32) :
    (x <<< 10) ||| (y <<< 5) ||| z = x * 2 ^ 10 + y * 2 ^ 5 + z := by
  simp only [Nat.shiftLeft_eq]
  rw [lor_eq_add_of_lt 10 (x * 2 ^ 10) (y * 2 ^ 5) (by omega) (by omega),
      lor_eq_add_of_lt 5 (x * 2 ^ 10 + y * 2 ^ 5) z (by omega) hz]

theorem lor_alpha_bit (x : Nat) (hx : x < 32768) : x ||| 32768 = x + 32768 := by
  rw [Nat.lor_comm, lor_eq_add_of_lt 15 32768 x (by norm_num) (by omega)]
  omega

theorem and31 (x : Nat) : x &&& 31 = x % 32 := by
  have h := Nat.and_pow_two_sub_one_eq_mod x 5
  norm_num at h
  exact h

theorem and63 (x : Nat) : x &&& 63 = x % 64 := by
  have h := Nat.and_pow_two_sub_one_eq_mod x 6
  norm_num at h
  exact h

theorem and_alpha_bit (x : Nat) : x &&& 32768 = if x / 32768 % 2 = 1 then 32768 else 0 := by
  have h := Nat.and_two_pow x 15
  rw [Nat.testBit_to_div_mod] at h
  norm_num at h ⊢
  rw [h]
  by_cases hc : x / 32768 % 2 = 1 <;> simp [hc]

theorem extract8888hi (x y z w : Nat) (hx : x < 256) (hy : y < 256) (hz : z < 256)
    (hw : w < 256) : byte (((x <<< 24) ||| (y <<< 16) ||| (z <<< 8) ||| w) >>> 24) = x := by
  rw [pack32 x y z w hy hz hw, byte, Nat.shiftRight_eq_div_pow]
  norm_num
  omega

theorem extract8888mid2 (x y z w : Nat) (hy : y < 256) (hz : z < 256) (hw : w < 256) :
    byte (((x <<< 24) ||| (y <<< 16) ||| (z <<< 8) ||| w) >>> 16) = y := by
  rw [pack32 x y z w hy hz hw, byte, Nat.shiftRight_eq_div_pow]
  norm_num
  omega

theorem extract8888mid1 (x y z w : Nat) (hy : y < 256) (hz : z < 256) (hw : w < 256) :
    byte (((x <<< 24) ||| (y <<< 16) ||| (z <<< 8) ||| w) >>> 8) = z := by
  rw [pack32 x y z w hy hz hw, byte, Nat.shiftRight_eq_div_pow]
  norm_num
  omega

theorem extract8888lo (x y z w : Nat) (hy : y < 256) (hz : z < 256) (hw : w < 256) :
    byte ((x <<< 24) ||| (y <<< 16) ||| (z <<< 8) ||| w) = w := by
  rw [pack32 x y z w hy hz hw, byte]
  omega

theorem extract888hi (x y z : Nat) (hx : x < 256) (hy : y < 256) (hz : z < 256) :
    byte (((x <<< 16) ||| (y <<< 8) ||| z) >>> 16) = x := by
  rw [pack24 x y z hy hz, byte, Nat.shiftRight_eq_div_pow]
  norm_num
  omega

theorem extract888mid (x y z : Nat) (hy : y < 256) (hz : z < 256) :
    byte (((x <<< 16) ||| (y <<< 8) ||| z) >>> 8) = y := by
  rw [pack24 x y z hy hz, byte, Nat.shiftRight_eq_div_pow]
  norm_num
  omega

theorem extract888lo (x y z : Nat) (hy : y < 256) (hz : z < 256) :
    byte ((x <<< 16) ||| (y <<< 8) ||| z) = z := by
  rw [pack24 x y z hy hz, byte]
  omega

theorem extract655hi (x y z : Nat) (hx : x < 32) (hy : y < 64) (hz : z < 32) :
    (((x <<< 11) ||| (y <<< 5) ||| z) >>> 11) &&& 31 = x := by
  rw [pack655 x y z hy hz, Nat.shiftRight_eq_div_pow, and31]
  norm_num
  omega

theorem extract655mid (x y z : Nat) (hy : y < 64) (hz : z < 32) :
    (((x <<< 11) ||| (y <<< 5) ||| z) >>> 5) &&& 63 = y := by
  rw [pack655 x y z hy hz, Nat.shiftRight_eq_div_pow, and63]
  norm_num
  omega

theorem extract655lo (x y z : Nat) (hy : y < 64) (hz : z < 32) :
    ((x <<< 11) ||| (y <<< 5) ||| z) &&& 31 = z := by
  rw [pack655 x y z hy hz, and31]
  omega

theorem extract555hi (x y z : Nat) (hx : x < 32) (hy : y < 32) (hz : z < 32) :
    (((x <<< 10) ||| (y <<< 5) ||| z) >>> 10) &&& 31 = x := by
  rw [pack555 x y z hy hz, Nat.shiftRight_eq_div_pow, and31]
  norm_num
  omega

theorem extract555mid (x y z : Nat) (hy : y < 32) (hz : z < 32) :
    (((x <<< 10) ||| (y <<< 5) ||| z) >>> 5) &&& 31 = y := by
  rw [pack555 x y z hy hz, and31, Nat.shiftRight_eq_div_pow]
  norm_num
  omega

theorem extract555lo (x y z : Nat) (hy : y < 32) (hz : z < 32) :
    ((x <<< 10) ||| (y <<< 5) ||| z) &&& 31 = z := by
  rw [pack555 x y z hy hz, and31]
  omega

theorem extract555alpha (x y z : Nat) (hx : x < 32) (hy : y < 32) (hz : z < 32) :
    ((x <<< 10) ||| (y <<< 5) ||| z) &&& 32768 = 0 := by
  rw [pack555 x y z hy hz, and_alpha_bit]
  split <;> omega

theorem pack555A (x y z : Nat) (hx : x < 32) (hy : y < 32) (hz : z < 32) :
    ((x <<< 10) ||| (y <<< 5) ||| z) ||| 32768 = x * 2 ^ 10 + y * 2 ^ 5 + z + 32768 := by
  rw [pack555 x y z hy hz, lor_alpha_bit _ (by omega)]

theorem extract555Ahi (x y z : Nat) (hx : x < 32) (hy : y < 32) (hz : z < 32) :
    ((((x <<< 10) ||| (y <<< 5) ||| z) ||| 32768) >>> 10) &&& 31 = x := by
  rw [pack555A x y z hx hy hz, Nat.shiftRight_eq_div_pow, and31]
  norm_num
  omega

theorem extract555Amid (x y z : Nat) (hx : x < 32) (hy : y < 32) (hz : z < 32) :
    ((((x <<< 10) ||| (y <<< 5) ||| z) ||| 32768) >>> 5) &&& 31 = y := by
  rw [pack555A x y z hx hy hz, Nat.shiftRight_eq_div_pow, and31]
  norm_num
  omega

theorem extract555Alo (x y z : Nat) (hx : x < 32) (hy : y < 32) (hz : z < 32) :
    (((x <<< 10) ||| (y <<< 5) ||| z) ||| 32768) &&& 31 = z := by
  rw [pack555A x y z hx hy hz, and31]
  omega

theorem extract555Aalpha (x y z : Nat) (hx : x < 32) (hy : y < 32) (hz : z < 32) :
    (((x <<< 10) ||| (y <<< 5) ||| z) ||| 32768) &&& 32768 = 32768 := by
  rw [pack555A x y z hx hy hz, and_alpha_bit]
  split <;> omega

/-! ### The claim-side round-trip specification (C3) -/

/-- The claim's channel re-expansion rule for a 5-bit channel:
`(c << 3) + (c >> 2)` replication, capped at 255 so the maximum channel
value maps exactly to 255. -/
def replicate5 (c : Nat) : Nat :=
  let v := (c <<< 3) + (c >>> 2)
  if v > 255 then 255 else v

/-- The claim's channel re-expansion rule for a 6-bit channel:
`(c << 2) + (c >> 3)` replication, capped at 255 so the maximum channel
value maps exactly to 255. -/
def replicate6 (c : Nat) : Nat :=
  let v := (c <<< 2) + (c >>> 3)
  if v > 255 then 255 else v

/-- The round-trip result stated by the claim: full-precision channels are
returned exactly, 16/15-bit channels lose their low bits and are re-expanded
by the replication rule, formats without an alpha channel report full
opacity, and a 1-bit alpha reports opaque iff the alpha argument was
nonzero. -/
def specRoundTrip (f : PixelFormat) (r g b a : Nat) : RGBA :=
  match f with
  | .ARGB32 | .ABGR32 | .RGBA32 | .BGRA32 => ⟨r, g, b, a⟩
  | .XRGB32 | .XBGR32 | .RGBX32 | .BGRX32 | .RGB24 | .BGR24 => ⟨r, g, b, 0xFF⟩
  | .RGB16 | .BGR16 =>
      ⟨replicate5 (r >>> 3), replicate6 (g >>> 2), replicate5 (b >>> 3), 0xFF⟩
  | .ARGB15 | .ABGR15 =>
      ⟨replicate5 (r >>> 3), replicate5 (g >>> 3), replicate5 (b >>> 3),
       if a ≠ 0 then 0xFF else 0x00⟩
  | .RGB15 | .BGR15 =>
      ⟨replicate5 (r >>> 3), replicate5 (g >>> 3), replicate5 (b >>> 3), 0xFF⟩
  | _ => ⟨0, 0, 0, 0⟩

/-- The formats for which both the pack direction (`FreeRDPGetColor`) and
the unpack direction (`FreeRDPSplitColor`) are supported: all formats except
the two 30-bit-depth variants (pack-only) and the indexed/mono formats
(unpack-only). -/
def supportedRoundTripFormats : List PixelFormat :=
  [.ARGB32, .XRGB32, .ABGR32, .XBGR32, .RGBA32, .RGBX32, .BGRA32, .BGRX32,
   .RGB24, .BGR24, .RGB16, .BGR16, .ARGB15, .ABGR15, .RGB15, .BGR15]

set_option maxRecDepth 8192 in
theorem mask5_id : ∀ r < 256, (r >>> 3) &&& 31 = r >>> 3 := by decide

set_option maxRecDepth 8192 in
theorem mask6_id : ∀ g < 256, (g >>> 2) &&& 63 = g >>> 2 := by decide

set_option maxRecDepth 8192 in
theorem shift3_lt : ∀ r < 256, r >>> 3 < 32 := by decide

set_option maxRecDepth 8192 in
theorem shift2_lt : ∀ g < 256, g >>> 2 < 64 := by decide

theorem expand5_eq : ∀ c < 32,
    byte (if (c <<< 3) + c / 4 > 255 then 255 else (c <<< 3) + c / 4) = replicate5 c := by
  decide

theorem expand6_eq : ∀ c < 64,
    byte (if (c <<< 2) + c / 4 / 2 > 255 then 255 else (c <<< 2) + c / 4 / 2) =
      replicate6 c := by
  decide

theorem rt_ARGB32 (r g b a : Nat) (hr : r < 256) (hg : g < 256) (hb : b < 256)
    (ha : a < 256) :
    FreeRDPSplitColor (FreeRDPGetColor .ARGB32 r g b a) .ARGB32 none =
      specRoundTrip .ARGB32 r g b a := by
  simp only [FreeRDPSplitColor, FreeRDPGetColor, FreeRDPSplitColorNull, specRoundTrip]
  rw [extract8888mid2 a r g b hr hg hb, extract8888mid1 a r g b hr hg hb,
      extract8888lo a r g b hr hg hb, extract8888hi a r g b ha hr hg hb]

theorem rt_XRGB32 (r g b a : Nat) (hr : r < 256) (hg : g < 256) (hb : b < 256)
    (_ha : a < 256) :
    FreeRDPSplitColor (FreeRDPGetColor .XRGB32 r g b a) .XRGB32 none =
      specRoundTrip .XRGB32 r g b a := by
  simp only [FreeRDPSplitColor, FreeRDPGetColor, FreeRDPSplitColorNull, specRoundTrip]
  rw [extract888hi r g b hr hg hb, extract888mid r g b hg hb, extract888lo r g b hg hb]

theorem rt_ABGR32 (r g b a : Nat) (hr : r < 256) (hg : g < 256) (hb : b < 256)
    (ha : a < 256) :
    FreeRDPSplitColor (FreeRDPGetColor .ABGR32 r g b a) .ABGR32 none =
      specRoundTrip .ABGR32 r g b a := by
  simp only [FreeRDPSplitColor, FreeRDPGetColor, FreeRDPSplitColorNull, specRoundTrip]
  rw [extract8888lo a b g r hb hg hr, extract8888mid1 a b g r hb hg hr,
      extract8888mid2 a b g r hb hg hr, extract8888hi a b g r ha hb hg hr]

theorem rt_XBGR32 (r g b a : Nat) (hr : r < 256) (hg : g < 256) (hb : b < 256)
    (_ha : a < 256) :
    FreeRDPSplitColor (FreeRDPGetColor .XBGR32 r g b a) .XBGR32 none =
      specRoundTrip .XBGR32 r g b a := by
  simp only [FreeRDPSplitColor, FreeRDPGetColor, FreeRDPSplitColorNull, specRoundTrip]
  rw [extract888lo b g r hg hr, extract888mid b g r hg hr, extract888hi b g r hb hg hr]

theorem rt_RGBA32 (r g b a : Nat) (hr : r < 256) (hg : g < 256) (hb : b < 256)
    (ha : a < 256) :
    FreeRDPSplitColor (FreeRDPGetColor .RGBA32 r g b a) .RGBA32 none =
      specRoundTrip .RGBA32 r g b a := by
  simp only [FreeRDPSplitColor, FreeRDPGetColor, FreeRDPSplitColorNull, specRoundTrip]
  rw [extract8888hi r g b a hr hg hb ha, extract8888mid2 r g b a hg hb ha,
      extract8888mid1 r g b a hg hb ha, extract8888lo r g b a hg hb ha]

theorem rt_RGBX32 (r g b a : Nat) (hr : r < 256) (hg : g < 256) (hb : b < 256)
    (ha : a < 256) :
    FreeRDPSplitColor (FreeRDPGetColor .RGBX32 r g b a) .RGBX32 none =
      specRoundTrip .RGBX32 r g b a := by
  simp only [FreeRDPSplitColor, FreeRDPGetColor, FreeRDPSplitColorNull, specRoundTrip]
  rw [extract8888hi r g b a hr hg hb ha, extract8888mid2 r g b a hg hb ha,
      extract8888mid1 r g b a hg hb ha]

theorem rt_BGRA32 (r g b a : Nat) (hr : r < 256) (hg : g < 256) (hb : b < 256)
    (ha : a < 256) :
    FreeRDPSplitColor (FreeRDPGetColor .BGRA32 r g b a) .BGRA32 none =
      specRoundTrip .BGRA32 r g b a := by
  simp only [FreeRDPSplitColor, FreeRDPGetColor, FreeRDPSplitColorNull, specRoundTrip]
  rw [extract8888mid1 b g r a hg hr ha, extract8888mid2 b g r a hg hr ha,
      extract8888hi b g r a hb hg hr ha, extract8888lo b g r a hg hr ha]

theorem rt_BGRX32 (r g b a : Nat) (hr : r < 256) (hg : g < 256) (hb : b < 256)
    (ha : a < 256) :
    FreeRDPSplitColor (FreeRDPGetColor .BGRX32 r g b a) .BGRX32 none =
      specRoundTrip .BGRX32 r g b a := by
  simp only [FreeRDPSplitColor, FreeRDPGetColor, FreeRDPSplitColorNull, specRoundTrip]
  rw [extract8888mid1 b g r a hg hr ha, extract8888mid2 b g r a hg hr ha,
      extract8888hi b g r a hb hg hr ha]

theorem rt_RGB24 (r g b a : Nat) (hr : r < 256) (hg : g < 256) (hb : b < 256)
    (_ha : a < 256) :
    FreeRDPSplitColor (FreeRDPGetColor .RGB24 r g b a) .RGB24 none =
      specRoundTrip .RGB24 r g b a := by
  simp only [FreeRDPSplitColor, FreeRDPGetColor, FreeRDPSplitColorNull, specRoundTrip]
  rw [extract888hi r g b hr hg hb, extract888mid r g b hg hb, extract888lo r g b hg hb]

theorem rt_BGR24 (r g b a : Nat) (hr : r < 256) (hg : g < 256) (hb : b < 256)
    (_ha : a < 256) :
    FreeRDPSplitColor (FreeRDPGetColor .BGR24 r g b a) .BGR24 none =
      specRoundTrip .BGR24 r g b a := by
  simp only [FreeRDPSplitColor, FreeRDPGetColor, FreeRDPSplitColorNull, specRoundTrip]
  rw [extract888lo b g r hg hr, extract888mid b g r hg hr, extract888hi b g r hb hg hr]

theorem rt_RGB16 (r g b a : Nat) (hr : r < 256) (hg : g < 256) (hb : b < 256)
    (_ha : a < 256) :
    FreeRDPSplitColor (FreeRDPGetColor .RGB16 r g b a) .RGB16 none =
      specRoundTrip .RGB16 r g b a := by
  simp only [FreeRDPSplitColor, FreeRDPGetColor, FreeRDPSplitColorNull, specRoundTrip]
  rw [mask5_id r hr, mask6_id g hg, mask5_id b hb]
  rw [extract655hi _ _ _ (shift3_lt r hr) (shift2_lt g hg) (shift3_lt b hb),
      extract655mid _ _ _ (shift2_lt g hg) (shift3_lt b hb),
      extract655lo _ _ _ (shift2_lt g hg) (shift3_lt b hb)]
  rw [expand5_eq _ (shift3_lt r hr), expand6_eq _ (shift2_lt g hg),
      expand5_eq _ (shift3_lt b hb)]

theorem rt_BGR16 (r g b a : Nat) (hr : r < 256) (hg : g < 256) (hb : b < 256)
    (_ha : a < 256) :
    FreeRDPSplitColor (FreeRDPGetColor .BGR16 r g b a) .BGR16 none =
      specRoundTrip .BGR16 r g b a := by
  simp only [FreeRDPSplitColor, FreeRDPGetColor, FreeRDPSplitColorNull, specRoundTrip]
  rw [mask5_id b hb, mask6_id g hg, mask5_id r hr]
  rw [extract655hi _ _ _ (shift3_lt b hb) (shift2_lt g hg) (shift3_lt r hr),
      extract655mid _ _ _ (shift2_lt g hg) (shift3_lt r hr),
      extract655lo _ _ _ (shift2_lt g hg) (shift3_lt r hr)]
  rw [expand5_eq _ (shift3_lt r hr), expand6_eq _ (shift2_lt g hg),
      expand5_eq _ (shift3_lt b hb)]

theorem rt_RGB15 (r g b a : Nat) (hr : r < 256) (hg : g < 256) (hb : b < 256)
    (_ha : a < 256) :
    FreeRDPSplitColor (FreeRDPGetColor .RGB15 r g b a) .RGB15 none =
      specRoundTrip .RGB15 r g b a := by
  simp only [FreeRDPSplitColor, FreeRDPGetColor, FreeRDPSplitColorNull, specRoundTrip]
  rw [mask5_id r hr, mask5_id g hg, mask5_id b hb]
  rw [extract555hi _ _ _ (shift3_lt r hr) (shift3_lt g hg) (shift3_lt b hb),
      extract555mid _ _ _ (shift3_lt g hg) (shift3_lt b hb),
      extract555lo _ _ _ (shift3_lt g hg) (shift3_lt b hb)]
  rw [expand5_eq _ (shift3_lt r hr), expand5_eq _ (shift3_lt g hg),
      expand5_eq _ (shift3_lt b hb)]

theorem rt_BGR15 (r g b a : Nat) (hr : r < 256) (hg : g < 256) (hb : b < 256)
    (_ha : a < 256) :
    FreeRDPSplitColor (FreeRDPGetColor .BGR15 r g b a) .BGR15 none =
      specRoundTrip .BGR15 r g b a := by
  simp only [FreeRDPSplitColor, FreeRDPGetColor, FreeRDPSplitColorNull, specRoundTrip]
  rw [mask5_id b hb, mask5_id g hg, mask5_id r hr]
  rw [extract555hi _ _ _ (shift3_lt b hb) (shift3_lt g hg) (shift3_lt r hr),
      extract555mid _ _ _ (shift3_lt g hg) (shift3_lt r hr),
      extract555lo _ _ _ (shift3_lt g hg) (shift3_lt r hr)]
  rw [expand5_eq _ (shift3_lt r hr), expand5_eq _ (shift3_lt g hg),
      expand5_eq _ (shift3_lt b hb)]

theorem rt_ARGB15 (r g b a : Nat) (hr : r < 256) (hg : g < 256) (hb : b < 256)
    (_ha : a < 256) :
    FreeRDPSplitColor (FreeRDPGetColor .ARGB15 r g b a) .ARGB15 none =
      specRoundTrip .ARGB15 r g b a := by
  simp only [FreeRDPGetColor]
  simp only [FreeRDPSplitColor]
  simp only [FreeRDPSplitColorNull]
  simp only [specRoundTrip]
  rw [mask5_id r hr, mask5_id g hg, mask5_id b hb]
  by_cases hA : a = 0
  · have h1 : (if a ≠ 0 then (32768 : Nat) else 0) = 0 := by simp [hA]
    rw [h1, Nat.or_zero]
    rw [extract555hi _ _ _ (shift3_lt r hr) (shift3_lt g hg) (shift3_lt b hb),
        extract555mid _ _ _ (shift3_lt g hg) (shift3_lt b hb),
        extract555lo _ _ _ (shift3_lt g hg) (shift3_lt b hb),
        extract555alpha _ _ _ (shift3_lt r hr) (shift3_lt g hg) (shift3_lt b hb)]
    rw [expand5_eq _ (shift3_lt r hr), expand5_eq _ (shift3_lt g hg),
        expand5_eq _ (shift3_lt b hb)]
    simp [hA]
  · have h1 : (if a ≠ 0 then (32768 : Nat) else 0) = 32768 := by simp [hA]
    rw [h1]
    rw [extract555Ahi _ _ _ (shift3_lt r hr) (shift3_lt g hg) (shift3_lt b hb),
        extract555Amid _ _ _ (shift3_lt r hr) (shift3_lt g hg) (shift3_lt b hb),
        extract555Alo _ _ _ (shift3_lt r hr) (shift3_lt g hg) (shift3_lt b hb),
        extract555Aalpha _ _ _ (shift3_lt r hr) (shift3_lt g hg) (shift3_lt b hb)]
    rw [expand5_eq _ (shift3_lt r hr), expand5_eq _ (shift3_lt g hg),
        expand5_eq _ (shift3_lt b hb)]
    simp [hA]

theorem rt_ABGR15 (r g b a : Nat) (hr : r < 256) (hg : g < 256) (hb : b < 256)
    (_ha : a < 256) :
    FreeRDPSplitColor (FreeRDPGetColor .ABGR15 r g b a) .ABGR15 none =
      specRoundTrip .ABGR15 r g b a := by
  simp only [FreeRDPGetColor]
  simp only [FreeRDPSplitColor]
  simp only [FreeRDPSplitColorNull]
  simp only [specRoundTrip]
  rw [mask5_id b hb, mask5_id g hg, mask5_id r hr]
  by_cases hA : a = 0
  · have h1 : (if a ≠ 0 then (32768 : Nat) else 0) = 0 := by simp [hA]
    rw [h1, Nat.or_zero]
    rw [extract555hi _ _ _ (shift3_lt b hb) (shift3_lt g hg) (shift3_lt r hr),
        extract555mid _ _ _ (shift3_lt g hg) (shift3_lt r hr),
        extract555lo _ _ _ (shift3_lt g hg) (shift3_lt r hr),
        extract555alpha _ _ _ (shift3_lt b hb) (shift3_lt g hg) (shift3_lt r hr)]
    rw [expand5_eq _ (shift3_lt r hr), expand5_eq _ (shift3_lt g hg),
        expand5_eq _ (shift3_lt b hb)]
    simp [hA]
  · have h1 : (if a ≠ 0 then (32768 : Nat) else 0) = 32768 := by simp [hA]
    rw [h1]
    rw [extract555Ahi _ _ _ (shift3_lt b hb) (shift3_lt g hg) (shift3_lt r hr),
        extract555Amid _ _ _ (shift3_lt b hb) (shift3_lt g hg) (shift3_lt r hr),
        extract555Alo _ _ _ (shift3_lt b hb) (shift3_lt g hg) (shift3_lt r hr),
        extract555Aalpha _ _ _ (shift3_lt b hb) (shift3_lt g hg) (shift3_lt r hr)]
    rw [expand5_eq _ (shift3_lt r hr), expand5_eq _ (shift3_lt g hg),
        expand5_eq _ (shift3_lt b hb)]
    simp [hA]

theorem splitColor_nonindexed (x : Nat) (F : PixelFormat) (p : Option gdiPalette)
    (h : F ≠ .RGB8) : FreeRDPSplitColor x F p = FreeRDPSplitColorNull x F := by
  cases p <;> cases F <;> first | rfl | exact absurd rfl h

theorem byte_lt (t : Nat) : byte t < 256 := Nat.mod_lt _ (by norm_num)

/-! ### Claim C1 -/

/-- Claim C1 counterexample: the overlap test is not symmetric.  Here the
destination view occupies byte interval `[0, 20)` (base 0, height 2,
stride 10) and the source view occupies `[5, 7)` (base 5, height 2,
stride 1): the source's starting address 5 lies inside the destination's
interval, so the claim requires the test to report overlap, yet
`overlapping` returns `false` because it only checks whether the
destination's start or end lies inside the source interval. -/
theorem C1_counterexample :
    overlapping 0 0 0 10 4 5 0 0 1 1 1 2 = false ∧
    (0 : Int) ≤ 5 ∧ (5 : Int) < 0 + 2 * 10 := by decide

/-- Claim C1 (amended): the overlap test treats each view's occupied byte
range as the closed interval `[start, start + height·stride]` and returns
true iff the DESTINATION view's start address or end address lies within
the SOURCE view's interval; it does not perform the symmetric check of the
source start against the destination interval. -/
theorem C1_overlapping_characterization (pDst : Int)
    (nXDst nYDst nDstStep dstBpp : Nat) (pSrc : Int)
    (nXSrc nYSrc nSrcStep srcBpp nWidth nHeight : Nat) :
    overlapping pDst nXDst nYDst nDstStep dstBpp pSrc nXSrc nYSrc nSrcStep srcBpp
        nWidth nHeight = true ↔
      ((pSrc + nXSrc * srcBpp + nYSrc * nSrcStep ≤
          pDst + nXDst * dstBpp + nYDst * nDstStep ∧
        pDst + nXDst * dstBpp + nYDst * nDstStep ≤
          pSrc + nXSrc * srcBpp + nYSrc * nSrcStep + nHeight * nSrcStep) ∨
       (pSrc + nXSrc * srcBpp + nYSrc * nSrcStep ≤
          pDst + nXDst * dstBpp + nYDst * nDstStep + nHeight * nDstStep ∧
        pDst + nXDst * dstBpp + nYDst * nDstStep + nHeight * nDstStep ≤
          pSrc + nXSrc * srcBpp + nYSrc * nSrcStep + nHeight * nSrcStep)) := by
  simp only [overlapping]
  split_ifs with h1 h2 <;> simp <;> omega

/-! ### Claim C3 -/

/-- Claim C3 counterexample: the 30-bit-depth formats are supported on the
pack direction but `FreeRDPSplitColor` does not decode them (its `default`
branch returns the zero quadruple), so the round trip at full-intensity
white returns `(0,0,0,0)` instead of a value equal to `(255,255,255,255)`
up to channel precision. -/
theorem C3_counterexample :
    FreeRDPSplitColor (FreeRDPGetColor .BGRX32_DEPTH30 255 255 255 255)
        .BGRX32_DEPTH30 none = ⟨0, 0, 0, 0⟩ ∧
    (⟨0, 0, 0, 0⟩ : RGBA) ≠ ⟨255, 255, 255, 255⟩ := by
  exact ⟨rfl, by decide⟩

/-- Claim C3 (amended): for every supported format except the two
30-bit-depth packed variants (whose packed colors `FreeRDPSplitColor`
treats as unsupported, returning the zero quadruple) and the indexed/mono
formats (which `FreeRDPGetColor` cannot pack),
`FreeRDPSplitColor (FreeRDPGetColor F r g b a) F` returns `(r,g,b,a)` up to
the format's native channel precision: 32/24-bit color channels round-trip
exactly, 16/15-bit channels lose their low bits and are re-expanded to
8 bits by the `(c << shift) + (c >> adjust)` replication rule capped at 255
(so the maximum reduced-depth channel value maps exactly to 255), formats
without alpha report full opacity, and the 1-bit alpha of the 15-bit alpha
formats reports `0xFF` iff the alpha argument was nonzero. -/
theorem C3_roundtrip_channel_precision (F : PixelFormat)
    (hF : F ∈ supportedRoundTripFormats) (r g b a : Nat)
    (hr : r < 256) (hg : g < 256) (hb : b < 256) (ha : a < 256) :
    FreeRDPSplitColor (FreeRDPGetColor F r g b a) F none =
      specRoundTrip F r g b a := by
  simp only [supportedRoundTripFormats] at hF
  fin_cases hF
  · exact rt_ARGB32 r g b a hr hg hb ha
  · exact rt_XRGB32 r g b a hr hg hb ha
  · exact rt_ABGR32 r g b a hr hg hb ha
  · exact rt_XBGR32 r g b a hr hg hb ha
  · exact rt_RGBA32 r g b a hr hg hb ha
  · exact rt_RGBX32 r g b a hr hg hb ha
  · exact rt_BGRA32 r g b a hr hg hb ha
  · exact rt_BGRX32 r g b a hr hg hb ha
  · exact rt_RGB24 r g b a hr hg hb ha
  · exact rt_BGR24 r g b a hr hg hb ha
  · exact rt_RGB16 r g b a hr hg hb ha
  · exact rt_BGR16 r g b a hr hg hb ha
  · exact rt_ARGB15 r g b a hr hg hb ha
  · exact rt_ABGR15 r g b a hr hg hb ha
  · exact rt_RGB15 r g b a hr hg hb ha
  · exact rt_BGR15 r g b a hr hg hb ha

/-- Witness for C3: the round-trip theorem evaluated at a concrete RGB16
color. -/
theorem C3_roundtrip_channel_precision_witness :
    FreeRDPSplitColor (FreeRDPGetColor .RGB16 250 131 7 9) .RGB16 none =
      specRoundTrip .RGB16 250 131 7 9 :=
  C3_roundtrip_channel_precision .RGB16 (by decide) 250 131 7 9
    (by decide) (by decide) (by decide) (by decide)

/-! ### Claim C4 -/

/-- Claim C4 counterexample: `PIXEL_FORMAT_RGBX32` carries no alpha channel,
yet `FreeRDPGetColor` copies the alpha argument into the packed value's low
(don't-care) byte, so packing is NOT independent of the alpha argument; and
for the alpha-free 30-bit-depth formats `FreeRDPSplitColor` reports alpha 0,
not full opacity. -/
theorem C4_counterexample :
    FreeRDPColorHasAlpha .RGBX32 = false ∧
    FreeRDPGetColor .RGBX32 0 0 0 0 ≠ FreeRDPGetColor .RGBX32 0 0 0 1 ∧
    FreeRDPColorHasAlpha .BGRX32_DEPTH30 = false ∧
    (FreeRDPSplitColor 0 .BGRX32_DEPTH30 none).a = 0 := by decide

/-- Claim C4 (amended): for every format without an alpha channel EXCEPT
`RGBX32` and `BGRX32` (whose pack direction copies the alpha argument into
the don't-care byte), `FreeRDPGetColor` produces the same packed value for
every alpha argument; and `FreeRDPSplitColor` always reports alpha `0xFF`
for the alpha-free 32/24/16/15-bit RGB layouts (but not for the
30-bit-depth, indexed or mono formats). -/
theorem C4_alpha_ignored_split_opacity :
    (∀ F ∈ ([.XRGB32, .XBGR32, .BGRX32_DEPTH30, .RGBX32_DEPTH30, .RGB24, .BGR24,
             .RGB16, .BGR16, .RGB15, .BGR15, .RGB8, .A4, .MONO] : List PixelFormat),
      ∀ r g b a a' : Nat, FreeRDPGetColor F r g b a = FreeRDPGetColor F r g b a') ∧
    (∀ F ∈ ([.XRGB32, .XBGR32, .RGBX32, .BGRX32, .RGB24, .BGR24, .RGB16, .BGR16,
             .RGB15, .BGR15] : List PixelFormat),
      ∀ (x : Nat) (p : Option gdiPalette), (FreeRDPSplitColor x F p).a = 0xFF) := by
  constructor
  · intro F hF r g b a a'
    fin_cases hF <;> rfl
  · intro F hF x p
    fin_cases hF <;> cases p <;> rfl

/-- Witness for C4: alpha-independence of `XRGB32` packing and full opacity
of `RGB16` unpacking at concrete inputs. -/
theorem C4_alpha_ignored_split_opacity_witness :
    FreeRDPGetColor .XRGB32 1 2 3 4 = FreeRDPGetColor .XRGB32 1 2 3 200 ∧
    (FreeRDPSplitColor 12345 .RGB16 none).a = 0xFF :=
  ⟨C4_alpha_ignored_split_opacity.1 .XRGB32 (by decide) 1 2 3 4 200,
   C4_alpha_ignored_split_opacity.2 .RGB16 (by decide) 12345 none⟩

/-! ### Claim C9 -/

/-- Claim C9 counterexample: converting a color to its own format is not the
identity for every format: for `RGBX32` the packed value 0 converts to
`0xFF` (the split direction forces alpha `0xFF` and the pack direction
writes it into the low byte). -/
theorem C9_counterexample :
    FreeRDPConvertColor 0 .RGBX32 .RGBX32 none = 0xFF ∧ (0xFF : Nat) ≠ 0 := by
  decide

/-- Claim C9 (amended): `FreeRDPConvertColor x F F p = x` holds for every
32-bit value `x` and every palette when `F` is one of the four 32-bit
formats with an alpha channel (`ARGB32`, `ABGR32`, `RGBA32`, `BGRA32`);
formats that do not represent all 32 bits (X/mono/indexed/reduced-depth
layouts) can alter the non-represented bits. -/
theorem C9_convert_identity (F : PixelFormat)
    (hF : F ∈ ([.ARGB32, .ABGR32, .RGBA32, .BGRA32] : List PixelFormat))
    (x : Nat) (hx : x < 2 ^ 32) (p : Option gdiPalette) :
    FreeRDPConvertColor x F F p = x := by
  fin_cases hF <;> cases p <;>
    · simp only [FreeRDPConvertColor]
      simp only [FreeRDPSplitColor]
      simp only [FreeRDPSplitColorNull, FreeRDPGetColor]
      rw [pack32 _ _ _ _ (byte_lt _) (byte_lt _) (byte_lt _)]
      simp only [byte, Nat.shiftRight_eq_div_pow]
      norm_num
      omega

/-- Witness for C9: identity conversion of a concrete `ARGB32` color. -/
theorem C9_convert_identity_witness :
    FreeRDPConvertColor 0x12345678 .ARGB32 .ARGB32 none = 0x12345678 :=
  C9_convert_identity .ARGB32 (by decide) 0x12345678 (by norm_num) none

/-! ### Byte-buffer memory model

Buffers are total maps from integer byte addresses to byte values.
`WINPR_RESTRICT` source buffers that are only read are passed as plain
`Nat → Nat` maps over nonnegative offsets. -/

/-- A byte memory: address to stored byte value. -/
def Mem : Type := Int → Nat

/-- Store one byte. -/
def writeByte (m : Mem) (addr : Int) (v : Nat) : Mem :=
  fun i => if i = addr then v else m i

/-- Store the low `n` bytes of `color` at `addr`, most significant byte
first. -/
def writeBytesBE (addr : Int) (color : Nat) : Nat → Mem → Mem
  | 0, m => m
  | k + 1, m => writeBytesBE (addr + 1) color k (writeByte m addr (byte (color >>> (8 * k))))

/-- Read `n` bytes at `addr` as a big-endian value. -/
def readBytesBE (m : Mem) (addr : Int) : Nat → Nat
  | 0 => 0
  | k + 1 => byte (m addr) * 2 ^ (8 * k) + readBytesBE m (addr + 1) k

/-- Modelled from the spec: `FreeRDPWriteColor_int` (defined in the
`color.h` header) encodes the packed color's on-the-wire byte pattern at a
`bytesPerPixel`-sized location.  The byte order is modelled big-endian,
consistent with the source's own comment that `FreeRDPWriteColor` writes
the `UINT32` in big-endian. -/
def FreeRDPWriteColor_int (m : Mem) (addr : Int) (format : PixelFormat) (color : Nat) : Mem :=
  writeBytesBE addr color (FreeRDPGetBytesPerPixel format) m

/-- Modelled from the spec: `FreeRDPReadColor_int` (defined in the
`color.h` header) decodes the byte pattern at a `bytesPerPixel`-sized
location; inverse of `FreeRDPWriteColor_int`. -/
def FreeRDPReadColor_int (m : Mem) (addr : Int) (format : PixelFormat) : Nat :=
  readBytesBE m addr (FreeRDPGetBytesPerPixel format)

/-- Modelled from the spec: `FreeRDPWriteColorIgnoreAlpha_int` (defined in
the `color.h` header) writes RGB channels only, leaving any existing alpha
byte at the destination untouched: for the 32-bit formats with the alpha
position in the high byte of the packed value the destination's high byte
is kept, for those with it in the low byte the destination's low byte is
kept, and for all other formats it behaves as `FreeRDPWriteColor_int`. -/
def FreeRDPWriteColorIgnoreAlpha_int (m : Mem) (addr : Int) (format : PixelFormat)
    (color : Nat) : Mem :=
  match format with
  | .XBGR32 | .XRGB32 | .ABGR32 | .ARGB32 =>
      let tmp := (FreeRDPReadColor_int m addr format &&& 0xFF000000) ||| (color &&& 0x00FFFFFF)
      FreeRDPWriteColor_int m addr format tmp
  | .BGRX32 | .BGRA32 | .RGBX32 | .RGBA32 =>
      let tmp := (FreeRDPReadColor_int m addr format &&& 0x000000FF) ||| (color &&& 0xFFFFFF00)
      FreeRDPWriteColor_int m addr format tmp
  | f => FreeRDPWriteColor_int m addr f color

theorem bytesPerPixel_pos (F : PixelFormat) : 1 ≤ FreeRDPGetBytesPerPixel F := by
  cases F <;> decide

theorem bytesPerPixel_le (F : PixelFormat) : FreeRDPGetBytesPerPixel F ≤ 4 := by
  cases F <;> decide

theorem writeBytesBE_frame (n : Nat) :
    ∀ (addr : Int) (c : Nat) (m : Mem) (i : Int),
      i < addr ∨ addr + n ≤ i → writeBytesBE addr c n m i = m i := by
  induction n with
  | zero => intro addr c m i _; rfl
  | succ k ih =>
    intro addr c m i h
    show writeBytesBE (addr + 1) c k (writeByte m addr (byte (c >>> (8 * k)))) i = m i
    rw [ih (addr + 1) c _ i (by omega)]
    exact if_neg (by omega)

theorem readBytesBE_congr (n : Nat) :
    ∀ (m₁ m₂ : Mem) (addr : Int),
      (∀ i : Int, addr ≤ i → i < addr + n → m₁ i = m₂ i) →
      readBytesBE m₁ addr n = readBytesBE m₂ addr n := by
  induction n with
  | zero => intro m₁ m₂ addr _; rfl
  | succ k ih =>
    intro m₁ m₂ addr h
    show byte (m₁ addr) * 2 ^ (8 * k) + readBytesBE m₁ (addr + 1) k =
      byte (m₂ addr) * 2 ^ (8 * k) + readBytesBE m₂ (addr + 1) k
    rw [h addr (by omega) (by omega), ih m₁ m₂ (addr + 1) fun i h1 h2 => h i (by omega) (by omega)]

theorem readBytesBE_writeBytesBE (n : Nat) :
    ∀ (addr : Int) (c : Nat) (m : Mem),
      readBytesBE (writeBytesBE addr c n m) addr n = c % 2 ^ (8 * n) := by
  induction n with
  | zero => intro addr c m; simp [readBytesBE, Nat.mod_one]
  | succ k ih =>
    intro addr c m
    show byte (writeBytesBE (addr + 1) c k (writeByte m addr (byte (c >>> (8 * k)))) addr) *
        2 ^ (8 * k) +
      readBytesBE (writeBytesBE (addr + 1) c k (writeByte m addr (byte (c >>> (8 * k)))))
        (addr + 1) k = c % 2 ^ (8 * (k + 1))
    rw [writeBytesBE_frame k (addr + 1) c _ addr (by omega), ih (addr + 1) c _]
    show byte (writeByte m addr (byte (c >>> (8 * k))) addr) * 2 ^ (8 * k) + c % 2 ^ (8 * k) =
      c % 2 ^ (8 * (k + 1))
    rw [show writeByte m addr (byte (c >>> (8 * k))) addr = byte (c >>> (8 * k)) from if_pos rfl]
    rw [show (8 * (k + 1)) = 8 * k + 8 from by ring, pow_add]
    simp only [byte, Nat.shiftRight_eq_div_pow]
    rw [Nat.mod_mod_of_dvd _ dvd_rfl]
    rw [show ((2 : Nat) ^ 8) = 256 from by norm_num, Nat.mod_mul]
    ring

theorem FreeRDPWriteColor_int_frame (m : Mem) (addr : Int) (F : PixelFormat) (c : Nat)
    (i : Int) (h : i < addr ∨ addr + FreeRDPGetBytesPerPixel F ≤ i) :
    FreeRDPWriteColor_int m addr F c i = m i :=
  writeBytesBE_frame _ _ _ _ _ h

theorem FreeRDPReadColor_int_congr (m₁ m₂ : Mem) (addr : Int) (F : PixelFormat)
    (h : ∀ i : Int, addr ≤ i → i < addr + FreeRDPGetBytesPerPixel F → m₁ i = m₂ i) :
    FreeRDPReadColor_int m₁ addr F = FreeRDPReadColor_int m₂ addr F :=
  readBytesBE_congr _ _ _ _ h

theorem readColor_writeColor (m : Mem) (addr : Int) (F : PixelFormat) (c : Nat) :
    FreeRDPReadColor_int (FreeRDPWriteColor_int m addr F c) addr F =
      c % 2 ^ (8 * FreeRDPGetBytesPerPixel F) :=
  readBytesBE_writeBytesBE _ _ _ _

theorem FreeRDPWriteColorIgnoreAlpha_int_frame (m : Mem) (addr : Int) (F : PixelFormat)
    (c : Nat) (i : Int) (h : i < addr ∨ addr + FreeRDPGetBytesPerPixel F ≤ i) :
    FreeRDPWriteColorIgnoreAlpha_int m addr F c i = m i := by
  cases F <;> exact FreeRDPWriteColor_int_frame _ _ _ _ _ h

/-! ### Generic loop evaluation machinery -/

/-- Closed form of a left-to-right pixel row loop: write `colorOf x` at
`addrOf x` for `w` consecutive pixel indices starting at `x`. -/
def pixelRowWrite (F : PixelFormat) (addrOf : Nat → Int) (colorOf : Nat → Nat) :
    Nat → Nat → Mem → Mem
  | 0, _, m => m
  | w + 1, x, m =>
      pixelRowWrite F addrOf colorOf w (x + 1)
        (FreeRDPWriteColor_int m (addrOf x) F (colorOf x))

theorem pixelRowWrite_frame (F : PixelFormat) (addrOf : Nat → Int) (colorOf : Nat → Nat)
    (w : Nat) :
    ∀ (x : Nat) (m : Mem) (i : Int),
      (∀ t, x ≤ t → t < x + w → i < addrOf t ∨ addrOf t + FreeRDPGetBytesPerPixel F ≤ i) →
      pixelRowWrite F addrOf colorOf w x m i = m i := by
  induction w with
  | zero => intro x m i _; rfl
  | succ k ih =>
    intro x m i h
    show pixelRowWrite F addrOf colorOf k (x + 1) _ i = m i
    rw [ih (x + 1) _ i fun t h1 h2 => h t (by omega) (by omega)]
    exact FreeRDPWriteColor_int_frame _ _ _ _ _ (h x (by omega) (by omega))

theorem pixelRowWrite_read (F : PixelFormat) (addrOf : Nat → Int) (colorOf : Nat → Nat)
    (w : Nat) :
    ∀ (x : Nat) (m : Mem) (j : Nat), x ≤ j → j < x + w →
      (∀ t, j < t → t < x + w → addrOf j + FreeRDPGetBytesPerPixel F ≤ addrOf t) →
      FreeRDPReadColor_int (pixelRowWrite F addrOf colorOf w x m) (addrOf j) F =
        colorOf j % 2 ^ (8 * FreeRDPGetBytesPerPixel F) := by
  induction w with
  | zero => intro x m j h1 h2 _; omega
  | succ k ih =>
    intro x m j h1 h2 hdisj
    show FreeRDPReadColor_int
        (pixelRowWrite F addrOf colorOf k (x + 1)
          (FreeRDPWriteColor_int m (addrOf x) F (colorOf x))) (addrOf j) F = _
    rcases Nat.eq_or_lt_of_le h1 with rfl | hlt
    · rw [FreeRDPReadColor_int_congr _ (FreeRDPWriteColor_int m (addrOf x) F (colorOf x))
        (addrOf x) F fun i hi1 hi2 =>
          pixelRowWrite_frame F addrOf colorOf k (x + 1) _ i fun t ht1 ht2 =>
            Or.inl (lt_of_lt_of_le hi2 (hdisj t (by omega) (by omega)))]
      exact readColor_writeColor m (addrOf x) F (colorOf x)
    · exact ih (x + 1) _ j hlt (by omega) fun t ht1 ht2 => hdisj t ht1 (by omega)

/-- Closed form of a top-to-bottom row loop: apply `rowFn y` for `h`
consecutive row indices starting at `y0`. -/
def rowsApply (rowFn : Nat → Mem → Mem) : Nat → Nat → Mem → Mem
  | 0, _, m => m
  | h + 1, y, m => rowsApply rowFn h (y + 1) (rowFn y m)

theorem rowsApply_frame (rowFn : Nat → Mem → Mem) (outRow : Nat → Int → Prop)
    (hframe : ∀ y m i, outRow y i → rowFn y m i = m i) (h : Nat) :
    ∀ (y0 : Nat) (m : Mem) (i : Int), (∀ y, y0 ≤ y → y < y0 + h → outRow y i) →
      rowsApply rowFn h y0 m i = m i := by
  induction h with
  | zero => intro y0 m i _; rfl
  | succ k ih =>
    intro y0 m i hout
    show rowsApply rowFn k (y0 + 1) (rowFn y0 m) i = m i
    rw [ih (y0 + 1) _ i fun y h1 h2 => hout y (by omega) (by omega)]
    exact hframe y0 m i (hout y0 (by omega) (by omega))

theorem rowsApply_read (rowFn : Nat → Mem → Mem) (outRow : Nat → Int → Prop)
    (hframe : ∀ y m i, outRow y i → rowFn y m i = m i) (a : Int) (n : Nat) (y : Nat)
    (h : Nat) :
    ∀ (y0 : Nat) (m : Mem), y0 ≤ y → y < y0 + h →
      (∀ y', y < y' → y' < y0 + h → ∀ i : Int, a ≤ i → i < a + n → outRow y' i) →
      readBytesBE (rowsApply rowFn h y0 m) a n =
        readBytesBE (rowFn y (rowsApply rowFn (y - y0) y0 m)) a n := by
  induction h with
  | zero => intro y0 m h1 h2 _; omega
  | succ k ih =>
    intro y0 m h1 h2 hafter
    show readBytesBE (rowsApply rowFn k (y0 + 1) (rowFn y0 m)) a n = _
    rcases Nat.eq_or_lt_of_le h1 with rfl | hlt
    · rw [readBytesBE_congr n _ (rowFn y0 m) a fun i hi1 hi2 =>
        rowsApply_frame rowFn outRow hframe k (y0 + 1) _ i fun y' hy1 hy2 =>
          hafter y' (by omega) (by omega) i hi1 hi2]
      rw [Nat.sub_self]
      rfl
    · rw [ih (y0 + 1) (rowFn y0 m) hlt (by omega) fun y' h1' h2' => hafter y' h1' (by omega)]
      have hk : y - y0 = (y - (y0 + 1)) + 1 := by omega
      rw [hk]
      rfl

/-! ### Pointer decode pre-pass (C7) -/

/-- The `memset(dst, 0, n)` of C as a byte-range clear. -/
def memset0 (m : Mem) (addr : Int) (n : Nat) : Mem :=
  fun i => if addr ≤ i ∧ i < addr + n then 0 else m i

/-- `UINT32` subtraction (wraps modulo `2^32`), as used by the source's
`nWidth - nXDst`. -/
def usub32 (a b : Nat) : Nat := (a + 2 ^ 32 - b) % 2 ^ 32

/-- The zero-fill pre-pass of `freerdp_image_copy_from_pointer_data`
(color.c lines 524-528): for `y` from `nYDst` while `y < nHeight`, clear
`dstBytesPerPixel * (nWidth - nXDst)` bytes at
`pDstData[y * nDstStep + nXDst * dstBytesPerPixel]`.  The loop counter is
embedded as (count, current y) with count = `nHeight - nYDst`. -/
def pointerZeroFillRows (nDstStep nXDst dstBytesPerPixel nWidth : Nat) :
    Nat → Nat → Mem → Mem
  | 0, _, m => m
  | k + 1, y, m =>
      pointerZeroFillRows nDstStep nXDst dstBytesPerPixel nWidth k (y + 1)
        (memset0 m ((y * nDstStep + nXDst * dstBytesPerPixel : Nat) : Int)
          (dstBytesPerPixel * usub32 nWidth nXDst))

theorem pointerZeroFillRows_eq_rowsApply (step nX B w : Nat) (k : Nat) :
    ∀ (y0 : Nat) (m : Mem),
      pointerZeroFillRows step nX B w k y0 m =
        rowsApply
          (fun y mm => memset0 mm ((y * step + nX * B : Nat) : Int) (B * usub32 w nX))
          k y0 m := by
  induction k with
  | zero => intro y0 m; rfl
  | succ j ih =>
    intro y0 m
    show pointerZeroFillRows step nX B w j (y0 + 1) _ = _
    rw [ih (y0 + 1) _]
    rfl

theorem pointerZeroFillRows_frame (step nX B w : Nat) (k : Nat) (y0 : Nat) (m : Mem)
    (i : Int)
    (h : ∀ y, y0 ≤ y → y < y0 + k →
      i < ((y * step + nX * B : Nat) : Int) ∨
      ((y * step + nX * B : Nat) : Int) + ((B * usub32 w nX : Nat) : Int) ≤ i) :
    pointerZeroFillRows step nX B w k y0 m i = m i := by
  rw [pointerZeroFillRows_eq_rowsApply]
  exact rowsApply_frame _
    (fun y i => i < ((y * step + nX * B : Nat) : Int) ∨
      ((y * step + nX * B : Nat) : Int) + ((B * usub32 w nX : Nat) : Int) ≤ i)
    (fun y mm i hh => if_neg (by omega)) k y0 m i h

theorem pointerZeroFillRows_zero (step nX B w : Nat) (k : Nat) :
    ∀ (y0 : Nat) (m : Mem) (i : Int),
      (∃ y, y0 ≤ y ∧ y < y0 + k ∧
        ((y * step + nX * B : Nat) : Int) ≤ i ∧
        i < ((y * step + nX * B : Nat) : Int) + ((B * usub32 w nX : Nat) : Int)) →
      pointerZeroFillRows step nX B w k y0 m i = 0 := by
  induction k with
  | zero => intro y0 m i h; obtain ⟨y, hy1, hy2, _, _⟩ := h; omega
  | succ j ih =>
    intro y0 m i h
    obtain ⟨y, hy1, hy2, hlo, hhi⟩ := h
    show pointerZeroFillRows step nX B w j (y0 + 1)
      (memset0 m ((y0 * step + nX * B : Nat) : Int) (B * usub32 w nX)) i = 0
    by_cases hy : y0 + 1 ≤ y
    · exact ih (y0 + 1) _ i ⟨y, hy, by omega, hlo, hhi⟩
    · have hyy : y = y0 := by omega
      rw [hyy] at hlo hhi
      by_cases hcov : ∃ y', (y0 + 1 ≤ y' ∧ y' < y0 + 1 + j) ∧
          ((y' * step + nX * B : Nat) : Int) ≤ i ∧
          i < ((y' * step + nX * B : Nat) : Int) + ((B * usub32 w nX : Nat) : Int)
      · obtain ⟨y', ⟨ha, hb⟩, hc, hd⟩ := hcov
        exact ih (y0 + 1) _ i ⟨y', ha, hb, hc, hd⟩
      · rw [pointerZeroFillRows_frame step nX B w j (y0 + 1) _ i fun y' h1 h2 => by
          by_contra hcon
          push_neg at hcon
          exact hcov ⟨y', ⟨h1, h2⟩, by omega, by omega⟩]
        exact if_pos (by omega)

/-- Claim C7: before dispatching to either decode sub-path,
`freerdp_image_copy_from_pointer_data` zero-fills, for every row index `y`
with `nYDst ≤ y < nHeight` (the bound is literally `nHeight`), the
`bytesPerPixel(DstFormat) * (nWidth - nXDst)` destination bytes starting at
column `nXDst` of row `y`, and no destination byte outside those ranges is
modified by this pre-pass. -/
theorem C7_pointer_prepass_zero_fill (DstFormat : PixelFormat)
    (nDstStep nXDst nYDst nWidth nHeight : Nat) (m : Mem)
    (hx : nXDst ≤ nWidth) (hw : nWidth < 2 ^ 32) :
    (∀ i : Int,
      (∃ y, nYDst ≤ y ∧ y < nHeight ∧
        ((y * nDstStep + nXDst * FreeRDPGetBytesPerPixel DstFormat : Nat) : Int) ≤ i ∧
        i < ((y * nDstStep + nXDst * FreeRDPGetBytesPerPixel DstFormat : Nat) : Int) +
          ((FreeRDPGetBytesPerPixel DstFormat * (nWidth - nXDst) : Nat) : Int)) →
      pointerZeroFillRows nDstStep nXDst (FreeRDPGetBytesPerPixel DstFormat) nWidth
        (nHeight - nYDst) nYDst m i = 0) ∧
    (∀ i : Int,
      (∀ y, nYDst ≤ y → y < nHeight →
        i < ((y * nDstStep + nXDst * FreeRDPGetBytesPerPixel DstFormat : Nat) : Int) ∨
        ((y * nDstStep + nXDst * FreeRDPGetBytesPerPixel DstFormat : Nat) : Int) +
          ((FreeRDPGetBytesPerPixel DstFormat * (nWidth - nXDst) : Nat) : Int) ≤ i) →
      pointerZeroFillRows nDstStep nXDst (FreeRDPGetBytesPerPixel DstFormat) nWidth
        (nHeight - nYDst) nYDst m i = m i) := by
  have husub : usub32 nWidth nXDst = nWidth - nXDst := by
    unfold usub32
    omega
  constructor
  · intro i h
    obtain ⟨y, h1, h2, h3, h4⟩ := h
    have := pointerZeroFillRows_zero nDstStep nXDst (FreeRDPGetBytesPerPixel DstFormat)
      nWidth (nHeight - nYDst) nYDst m i
    rw [husub] at this
    exact this ⟨y, h1, by omega, h3, h4⟩
  · intro i h
    have := pointerZeroFillRows_frame nDstStep nXDst (FreeRDPGetBytesPerPixel DstFormat)
      nWidth (nHeight - nYDst) nYDst m i
    rw [husub] at this
    exact this fun y h1 h2 => h y h1 (by omega)

/-- Witness for C7: the pre-pass on a 2-wide, 2-tall `ARGB32` region with
`nXDst = 1`, `nYDst = 0`, stride 8 clears exactly the bytes of columns 1 of
rows 0 and 1. -/
theorem C7_pointer_prepass_zero_fill_witness :
    (1 : Nat) ≤ 2 ∧ (2 : Nat) < 2 ^ 32 ∧
    pointerZeroFillRows 8 1 (FreeRDPGetBytesPerPixel .ARGB32) 2 (2 - 0) 0
      (fun _ => 7) 5 = 0 ∧
    pointerZeroFillRows 8 1 (FreeRDPGetBytesPerPixel .ARGB32) 2 (2 - 0) 0
      (fun _ => 7) 3 = 7 := by
  refine ⟨by decide, by decide, ?_, ?_⟩
  · exact (C7_pointer_prepass_zero_fill .ARGB32 8 1 0 2 2 (fun _ => 7) (by decide)
      (by norm_num)).1 5 ⟨0, by omega, by omega, by decide, by decide⟩
  · exact (C7_pointer_prepass_zero_fill .ARGB32 8 1 0 2 2 (fun _ => 7) (by decide)
      (by norm_num)).2 3 (by intro y h1 h2; interval_cases y <;> decide)

/-! ### Monochrome stencil copy (C2) -/

theorem monoBit_last : ∀ k < 8, k = 7 → (0x80 >>> k) >>> 1 = 0 := by decide

theorem monoBit_mid : ∀ k < 8, k ≠ 7 → (0x80 >>> k) >>> 1 ≠ 0 := by decide

/-- Inner pixel loop of `freerdp_image_copy_from_monochrome` (color.c lines
103-118): walks the 1-bit mask via the threaded `(monoBits, monoBit)`
cursor, writing `backColor` where the bit is set and `foreColor` where it
is clear.  Arguments after `foreColor`: remaining pixel count, current `x`,
current mask byte offset, current mask bit. -/
def monoRow (DstFormat : PixelFormat) (pDstLine nXDst : Nat) (src : Nat → Nat)
    (backColor foreColor : Nat) : Nat → Nat → Nat → Nat → Mem → Mem
  | 0, _, _, _, m => m
  | w + 1, x, monoIdx, monoBit, m =>
      monoRow DstFormat pDstLine nXDst src backColor foreColor w (x + 1)
        (if monoBit >>> 1 = 0 then monoIdx + 1 else monoIdx)
        (if monoBit >>> 1 = 0 then 0x80 else monoBit >>> 1)
        (if src monoIdx &&& monoBit ≠ 0 then
          FreeRDPWriteColor_int m
            ((pDstLine + (nXDst + x) * FreeRDPGetBytesPerPixel DstFormat : Nat) : Int)
            DstFormat backColor
         else
          FreeRDPWriteColor_int m
            ((pDstLine + (nXDst + x) * FreeRDPGetBytesPerPixel DstFormat : Nat) : Int)
            DstFormat foreColor)

theorem monoRow_eq_pixelRowWrite (F : PixelFormat) (L X0 : Nat) (src : Nat → Nat)
    (back fore I0 : Nat) (w : Nat) :
    ∀ (x : Nat) (m : Mem),
      monoRow F L X0 src back fore w x (I0 + x / 8) (0x80 >>> (x % 8)) m =
        pixelRowWrite F
          (fun t => ((L + (X0 + t) * FreeRDPGetBytesPerPixel F : Nat) : Int))
          (fun t => if src (I0 + t / 8) &&& (0x80 >>> (t % 8)) ≠ 0 then back else fore)
          w x m := by
  induction w with
  | zero => intro x m; rfl
  | succ k ih =>
    intro x m
    have hk8 : x % 8 < 8 := Nat.mod_lt x (by norm_num)
    have hidx : (if (0x80 >>> (x % 8)) >>> 1 = 0 then I0 + x / 8 + 1 else I0 + x / 8) =
        I0 + (x + 1) / 8 := by
      by_cases h7 : x % 8 = 7
      · rw [if_pos (monoBit_last (x % 8) hk8 h7)]
        omega
      · rw [if_neg (monoBit_mid (x % 8) hk8 h7)]
        omega
    have hbit : (if (0x80 >>> (x % 8)) >>> 1 = 0 then 0x80 else (0x80 >>> (x % 8)) >>> 1) =
        0x80 >>> ((x + 1) % 8) := by
      by_cases h7 : x % 8 = 7
      · rw [if_pos (monoBit_last (x % 8) hk8 h7)]
        rw [show (x + 1) % 8 = 0 from by omega]
        rfl
      · rw [if_neg (monoBit_mid (x % 8) hk8 h7)]
        rw [show (x + 1) % 8 = x % 8 + 1 from by omega]
        exact (Nat.shiftRight_add 0x80 (x % 8) 1).symm
    show monoRow F L X0 src back fore k (x + 1) _ _ _ = _
    rw [hidx, hbit,
      ← apply_ite
        (FreeRDPWriteColor_int m
          ((L + (X0 + x) * FreeRDPGetBytesPerPixel F : Nat) : Int) F)]
    exact ih (x + 1) _

/-- Outer row loop of `freerdp_image_copy_from_monochrome` (color.c lines
97-119): row `y` writes through `pDstLine = pDstData[(nYDst + y) * nDstStep]`
reading mask bytes from `pSrcData[monoStep * y]`. -/
def monoRows (DstFormat : PixelFormat) (nDstStep nXDst nYDst : Nat) (src : Nat → Nat)
    (monoStep backColor foreColor nWidth : Nat) : Nat → Nat → Mem → Mem
  | 0, _, m => m
  | h + 1, y, m =>
      monoRows DstFormat nDstStep nXDst nYDst src monoStep backColor foreColor nWidth h
        (y + 1)
        (monoRow DstFormat ((nYDst + y) * nDstStep) nXDst src backColor foreColor nWidth 0
          (monoStep * y) 0x80 m)

/-- `freerdp_image_copy_from_monochrome` (color.c lines 81-122).  The null
pointer checks of the source (which also require a non-null `palette`
argument that the body never uses) are outside this memory model: buffers
are total byte maps, so the embedding covers exactly the calls the claim
quantifies over (non-null destination, source and palette). -/
def freerdp_image_copy_from_monochrome (m : Mem) (DstFormat : PixelFormat)
    (nDstStep nXDst nYDst nWidth nHeight : Nat) (src : Nat → Nat)
    (backColor foreColor : Nat) : Mem :=
  let step := if nDstStep = 0 then FreeRDPGetBytesPerPixel DstFormat * nWidth else nDstStep
  let monoStep := (nWidth + 7) / 8
  monoRows DstFormat step nXDst nYDst src monoStep backColor foreColor nWidth nHeight 0 m

theorem monoRows_eq_rowsApply (F : PixelFormat) (step nXDst nYDst : Nat)
    (src : Nat → Nat) (monoStep back fore w : Nat) (h : Nat) :
    ∀ (y0 : Nat) (m : Mem),
      monoRows F step nXDst nYDst src monoStep back fore w h y0 m =
        rowsApply
          (fun y mm => monoRow F ((nYDst + y) * step) nXDst src back fore w 0
            (monoStep * y) 0x80 mm) h y0 m := by
  induction h with
  | zero => intro y0 m; rfl
  | succ k ih =>
    intro y0 m
    show monoRows F step nXDst nYDst src monoStep back fore w k (y0 + 1) _ = _
    rw [ih (y0 + 1) _]
    rfl

theorem pix_lo_le (L X0 B t : Nat) : L + X0 * B ≤ L + (X0 + t) * B := by
  have := Nat.mul_le_mul_right B (show X0 ≤ X0 + t by omega)
  omega

theorem pix_step_le (L X0 B w t : Nat) (h : t < w) :
    L + (X0 + t) * B + B ≤ L + (X0 + w) * B := by
  have h1 : (X0 + t) * B + B = (X0 + t + 1) * B := by ring
  have h2 : (X0 + t + 1) * B ≤ (X0 + w) * B := Nat.mul_le_mul_right B (by omega)
  omega

theorem row_separation (step B nXDst nYDst w x y y' : Nat) (hx : x < w) (hyy : y < y')
    (hstep : w * B ≤ step) :
    (nYDst + y) * step + (nXDst + x) * B + B ≤ (nYDst + y') * step + nXDst * B := by
  have h1 : (nXDst + x) * B + B = (nXDst + x + 1) * B := by ring
  have h2 : (nXDst + x + 1) * B ≤ (nXDst + w) * B := Nat.mul_le_mul_right B (by omega)
  have h3 : (nXDst + w) * B = nXDst * B + w * B := by ring
  have h4 : (nYDst + y + 1) * step ≤ (nYDst + y') * step := Nat.mul_le_mul_right step (by omega)
  have h5 : (nYDst + y + 1) * step = (nYDst + y) * step + step := by ring
  omega

theorem rowWrite_frame_std (F : PixelFormat) (L X0 : Nat) (colorOf : Nat → Nat) (w : Nat)
    (m : Mem) (i : Int)
    (h : i < ((L + X0 * FreeRDPGetBytesPerPixel F : Nat) : Int) ∨
      ((L + (X0 + w) * FreeRDPGetBytesPerPixel F : Nat) : Int) ≤ i) :
    pixelRowWrite F (fun t => ((L + (X0 + t) * FreeRDPGetBytesPerPixel F : Nat) : Int))
      colorOf w 0 m i = m i := by
  apply pixelRowWrite_frame
  intro t ht1 ht2
  rcases h with h | h
  · exact Or.inl (lt_of_lt_of_le h (by exact_mod_cast pix_lo_le L X0 _ t))
  · refine Or.inr (le_trans ?_ h)
    exact_mod_cast pix_step_le L X0 (FreeRDPGetBytesPerPixel F) w t (by omega)

theorem rowWrite_read_std (F : PixelFormat) (L X0 : Nat) (colorOf : Nat → Nat) (w x : Nat)
    (hx : x < w) (m : Mem) :
    FreeRDPReadColor_int
      (pixelRowWrite F (fun t => ((L + (X0 + t) * FreeRDPGetBytesPerPixel F : Nat) : Int))
        colorOf w 0 m)
      ((L + (X0 + x) * FreeRDPGetBytesPerPixel F : Nat) : Int) F =
      colorOf x % 2 ^ (8 * FreeRDPGetBytesPerPixel F) :=
  pixelRowWrite_read F _ colorOf w 0 m x (Nat.zero_le x) (by omega)
    fun t ht1 _ => by exact_mod_cast pix_step_le L X0 (FreeRDPGetBytesPerPixel F) t x ht1

/-- Claim C2 counterexample: with the single mask bit SET, the monochrome
stencil copy writes `backColor` (not `foreColor` as the claim states) through
the destination codec: a 1x1 `ARGB32` copy with mask byte `0x80` leaves the
destination pixel holding `backColor`. -/
theorem C2_counterexample :
    FreeRDPReadColor_int
      (freerdp_image_copy_from_monochrome (fun _ => 0) .ARGB32 0 0 0 1 1
        (fun _ => 0x80) 0x11223344 0x55667788)
      0 .ARGB32 = 0x11223344 ∧ (0x11223344 : Nat) ≠ 0x55667788 := by
  constructor
  · rfl
  · decide

/-- Claim C2 (amended): for every call to `freerdp_image_copy_from_monochrome`
(non-null destination, source and palette), every destination pixel whose
1-bit source mask bit is SET is written with `backColor` encoded through the
destination format's codec, and every pixel whose mask bit is CLEAR is
written with `foreColor` — the reverse of the claimed assignment.  Stated on
the final memory for every pixel `(x, y)` of the rectangle under the
buffer-view stride invariant `width * bytesPerPixel ≤ stride`. -/
theorem C2_monochrome_stencil (F : PixelFormat) (nDstStep nXDst nYDst nWidth nHeight : Nat)
    (src : Nat → Nat) (backColor foreColor : Nat) (m : Mem) (x y : Nat)
    (hx : x < nWidth) (hy : y < nHeight)
    (hstep : nWidth * FreeRDPGetBytesPerPixel F ≤
      (if nDstStep = 0 then FreeRDPGetBytesPerPixel F * nWidth else nDstStep)) :
    FreeRDPReadColor_int
      (freerdp_image_copy_from_monochrome m F nDstStep nXDst nYDst nWidth nHeight src
        backColor foreColor)
      (((nYDst + y) *
          (if nDstStep = 0 then FreeRDPGetBytesPerPixel F * nWidth else nDstStep) +
        (nXDst + x) * FreeRDPGetBytesPerPixel F : Nat) : Int) F =
      (if src ((nWidth + 7) / 8 * y + x / 8) &&& (0x80 >>> (x % 8)) ≠ 0 then backColor
       else foreColor) % 2 ^ (8 * FreeRDPGetBytesPerPixel F) := by
  set B := FreeRDPGetBytesPerPixel F with hB
  set step := if nDstStep = 0 then B * nWidth else nDstStep with hstepdef
  have hrow : ∀ (y' : Nat) (mm : Mem),
      monoRow F ((nYDst + y') * step) nXDst src backColor foreColor nWidth 0
        ((nWidth + 7) / 8 * y') 0x80 mm =
      pixelRowWrite F (fun t => (((nYDst + y') * step + (nXDst + t) * B : Nat) : Int))
        (fun t => if src ((nWidth + 7) / 8 * y' + t / 8) &&& (0x80 >>> (t % 8)) ≠ 0
          then backColor else foreColor) nWidth 0 mm := by
    intro y' mm
    have h := monoRow_eq_pixelRowWrite F ((nYDst + y') * step) nXDst src backColor foreColor
      ((nWidth + 7) / 8 * y') nWidth 0 mm
    simpa using h
  show readBytesBE
    (monoRows F step nXDst nYDst src ((nWidth + 7) / 8) backColor foreColor nWidth
      nHeight 0 m) _ B = _
  rw [monoRows_eq_rowsApply]
  rw [rowsApply_read
    (fun y' mm => monoRow F ((nYDst + y') * step) nXDst src backColor foreColor nWidth 0
      ((nWidth + 7) / 8 * y') 0x80 mm)
    (fun y' i => i < (((nYDst + y') * step + nXDst * B : Nat) : Int) ∨
      (((nYDst + y') * step + (nXDst + nWidth) * B : Nat) : Int) ≤ i)
    (fun y' mm i hh => by
      dsimp only at hh ⊢
      rw [hrow y' mm]
      exact rowWrite_frame_std F _ _ _ _ _ i hh)
    (((nYDst + y) * step + (nXDst + x) * B : Nat) : Int) B y nHeight 0 m (Nat.zero_le y)
    (by omega)
    (fun y' hy1 _ i _ hi2 => Or.inl (by
      have hsep := row_separation step B nXDst nYDst nWidth x y y' hx hy1 hstep
      omega))]
  rw [hrow y _]
  exact rowWrite_read_std F ((nYDst + y) * step) nXDst _ nWidth x hx _

/-- Witness for C2: a 2x1 copy with mask byte `0b01000000`: pixel 0 (bit
clear) reads back `foreColor`, pixel 1 (bit set) reads back `backColor`. -/
theorem C2_monochrome_stencil_witness :
    FreeRDPReadColor_int
      (freerdp_image_copy_from_monochrome (fun _ => 0) .ARGB32 0 0 0 2 1
        (fun _ => 0x40) 0x11223344 0x55667788)
      0 .ARGB32 = 0x55667788 ∧
    FreeRDPReadColor_int
      (freerdp_image_copy_from_monochrome (fun _ => 0) .ARGB32 0 0 0 2 1
        (fun _ => 0x40) 0x11223344 0x55667788)
      4 .ARGB32 = 0x11223344 := by
  constructor
  · have h := C2_monochrome_stencil .ARGB32 0 0 0 2 1 (fun _ => 0x40) 0x11223344 0x55667788
      (fun _ => 0) 0 0 (by decide) (by decide) (by decide)
    simpa using h
  · have h := C2_monochrome_stencil .ARGB32 0 0 0 2 1 (fun _ => 0x40) 0x11223344 0x55667788
      (fun _ => 0) 1 0 (by decide) (by decide) (by decide)
    simpa using h

/-! ### 1bpp pointer decode (C6) -/

/-- `freerdp_image_inverted_pointer_color` (color.c lines 124-141): opaque
white when `(x + y)` is even, opaque black when odd. -/
def freerdp_image_inverted_pointer_color (x y : Nat) (format : PixelFormat) : Nat :=
  let fill := if (x + y) &&& 1 ≠ 0 then 0x00 else 0xFF
  FreeRDPGetColor format fill fill fill 0xFF

/-- Inner pixel loop of `freerdp_image_copy_from_pointer_data_1bpp`
(color.c lines 341-371): walks the XOR and AND masks via two threaded
`(byte offset, bit)` cursors and writes the combined color.  Arguments
after the masks: remaining pixel count, current `x`, current destination
address, XOR cursor, AND cursor. -/
def pointer1bppRow (F : PixelFormat) (y : Nat) (xorMask andMask : Nat → Nat) :
    Nat → Nat → Nat → Nat → Nat → Nat → Nat → Mem → Mem
  | 0, _, _, _, _, _, _, m => m
  | w + 1, x, pDst, xorIdx, xorBit, andIdx, andBit, m =>
      let xorPixel : Nat := if xorMask xorIdx &&& xorBit ≠ 0 then 1 else 0
      let andPixel : Nat := if andMask andIdx &&& andBit ≠ 0 then 1 else 0
      let color :=
        if andPixel = 0 ∧ xorPixel = 0 then FreeRDPGetColor F 0 0 0 0xFF
        else if andPixel = 0 ∧ xorPixel ≠ 0 then FreeRDPGetColor F 0xFF 0xFF 0xFF 0xFF
        else if andPixel ≠ 0 ∧ xorPixel = 0 then FreeRDPGetColor F 0 0 0 0
        else if andPixel ≠ 0 ∧ xorPixel ≠ 0 then freerdp_image_inverted_pointer_color x y F
        else 0
      pointer1bppRow F y xorMask andMask w (x + 1) (pDst + FreeRDPGetBytesPerPixel F)
        (if xorBit >>> 1 = 0 then xorIdx + 1 else xorIdx)
        (if xorBit >>> 1 = 0 then 0x80 else xorBit >>> 1)
        (if andBit >>> 1 = 0 then andIdx + 1 else andIdx)
        (if andBit >>> 1 = 0 then 0x80 else andBit >>> 1)
        (FreeRDPWriteColor_int m (pDst : Int) F color)

/-- The per-pixel color of the 1bpp pointer decode expressed through the
closed-form mask bit positions. -/
def pointer1bppColorAt (F : PixelFormat) (xorMask andMask : Nat → Nat)
    (XI0 AI0 y : Nat) (t : Nat) : Nat :=
  let xorPixel : Nat := if xorMask (XI0 + t / 8) &&& (0x80 >>> (t % 8)) ≠ 0 then 1 else 0
  let andPixel : Nat := if andMask (AI0 + t / 8) &&& (0x80 >>> (t % 8)) ≠ 0 then 1 else 0
  if andPixel = 0 ∧ xorPixel = 0 then FreeRDPGetColor F 0 0 0 0xFF
  else if andPixel = 0 ∧ xorPixel ≠ 0 then FreeRDPGetColor F 0xFF 0xFF 0xFF 0xFF
  else if andPixel ≠ 0 ∧ xorPixel = 0 then FreeRDPGetColor F 0 0 0 0
  else if andPixel ≠ 0 ∧ xorPixel ≠ 0 then freerdp_image_inverted_pointer_color t y F
  else 0

theorem pointer1bppRow_eq_pixelRowWrite (F : PixelFormat) (y : Nat)
    (xorMask andMask : Nat → Nat) (XI0 AI0 L X0 : Nat) (w : Nat) :
    ∀ (x : Nat) (m : Mem),
      pointer1bppRow F y xorMask andMask w x (L + (X0 + x) * FreeRDPGetBytesPerPixel F)
        (XI0 + x / 8) (0x80 >>> (x % 8)) (AI0 + x / 8) (0x80 >>> (x % 8)) m =
      pixelRowWrite F (fun t => ((L + (X0 + t) * FreeRDPGetBytesPerPixel F : Nat) : Int))
        (pointer1bppColorAt F xorMask andMask XI0 AI0 y) w x m := by
  induction w with
  | zero => intro x m; rfl
  | succ k ih =>
    intro x m
    have hk8 : x % 8 < 8 := Nat.mod_lt x (by norm_num)
    have hidx : ∀ I0 : Nat,
        (if (0x80 >>> (x % 8)) >>> 1 = 0 then I0 + x / 8 + 1 else I0 + x / 8) =
        I0 + (x + 1) / 8 := by
      intro I0
      by_cases h7 : x % 8 = 7
      · rw [if_pos (monoBit_last (x % 8) hk8 h7)]
        omega
      · rw [if_neg (monoBit_mid (x % 8) hk8 h7)]
        omega
    have hbit : (if (0x80 >>> (x % 8)) >>> 1 = 0 then 0x80 else (0x80 >>> (x % 8)) >>> 1) =
        0x80 >>> ((x + 1) % 8) := by
      by_cases h7 : x % 8 = 7
      · rw [if_pos (monoBit_last (x % 8) hk8 h7)]
        rw [show (x + 1) % 8 = 0 from by omega]
        rfl
      · rw [if_neg (monoBit_mid (x % 8) hk8 h7)]
        rw [show (x + 1) % 8 = x % 8 + 1 from by omega]
        exact (Nat.shiftRight_add 0x80 (x % 8) 1).symm
    show pointer1bppRow F y xorMask andMask k (x + 1) _ _ _ _ _ _ = _
    rw [hidx XI0, hidx AI0, hbit,
      show L + (X0 + x) * FreeRDPGetBytesPerPixel F + FreeRDPGetBytesPerPixel F =
        L + (X0 + (x + 1)) * FreeRDPGetBytesPerPixel F from by ring]
    exact ih (x + 1) _

/-- Outer row loop of `freerdp_image_copy_from_pointer_data_1bpp`
(color.c lines 322-372): the destination row starts at
`(nYDst + y) * nDstStep + nXDst * bytesPerPixel`; mask rows are read
top-down when `vFlip` is false and bottom-up otherwise. -/
def pointer1bppRows (F : PixelFormat) (nDstStep nXDst nYDst : Nat)
    (xorMask andMask : Nat → Nat) (xorStep andStep nWidth nHeight : Nat) (vFlip : Bool) :
    Nat → Nat → Mem → Mem
  | 0, _, m => m
  | h + 1, y, m =>
      pointer1bppRows F nDstStep nXDst nYDst xorMask andMask xorStep andStep nWidth
        nHeight vFlip h (y + 1)
        (pointer1bppRow F y xorMask andMask nWidth 0
          ((nYDst + y) * nDstStep + nXDst * FreeRDPGetBytesPerPixel F)
          (if vFlip then xorStep * (nHeight - y - 1) else xorStep * y) 0x80
          (if vFlip then andStep * (nHeight - y - 1) else andStep * y) 0x80 m)

/-- `freerdp_image_copy_from_pointer_data_1bpp` (color.c lines 291-375).
Returns `(success, memory)`; all failure paths return before any write.
Null mask pointers are outside the byte-map model (the length-zero checks
are kept). -/
def freerdp_image_copy_from_pointer_data_1bpp (m : Mem) (DstFormat : PixelFormat)
    (nDstStep nXDst nYDst nWidth nHeight : Nat) (xorMask : Nat → Nat)
    (xorMaskLength : Nat) (andMask : Nat → Nat) (andMaskLength : Nat) (xorBpp : Nat) :
    Bool × Mem :=
  let vFlip : Bool := if xorBpp = 1 then false else true
  let andStep0 := (nWidth + 7) / 8
  let andStep := andStep0 + andStep0 % 2
  if xorMaskLength = 0 then (false, m)
  else if andMaskLength = 0 then (false, m)
  else
    let xorStep0 := (nWidth + 7) / 8
    let xorStep := xorStep0 + xorStep0 % 2
    if xorStep * nHeight > xorMaskLength then (false, m)
    else if andStep * nHeight > andMaskLength then (false, m)
    else
      (true, pointer1bppRows DstFormat nDstStep nXDst nYDst xorMask andMask xorStep
        andStep nWidth nHeight vFlip nHeight 0 m)

theorem pointer1bppRows_eq_rowsApply (F : PixelFormat) (nDstStep nXDst nYDst : Nat)
    (xorMask andMask : Nat → Nat) (xorStep andStep nWidth nHeight : Nat) (vFlip : Bool)
    (h : Nat) :
    ∀ (y0 : Nat) (m : Mem),
      pointer1bppRows F nDstStep nXDst nYDst xorMask andMask xorStep andStep nWidth
        nHeight vFlip h y0 m =
      rowsApply
        (fun y mm => pointer1bppRow F y xorMask andMask nWidth 0
          ((nYDst + y) * nDstStep + nXDst * FreeRDPGetBytesPerPixel F)
          (if vFlip then xorStep * (nHeight - y - 1) else xorStep * y) 0x80
          (if vFlip then andStep * (nHeight - y - 1) else andStep * y) 0x80 mm) h y0 m := by
  induction h with
  | zero => intro y0 m; rfl
  | succ k ih =>
    intro y0 m
    show pointer1bppRows F nDstStep nXDst nYDst xorMask andMask xorStep andStep nWidth
      nHeight vFlip k (y0 + 1) _ = _
    rw [ih (y0 + 1) _]
    rfl

theorem pointer1bppColorAt_claim_table (F : PixelFormat) (xorMask andMask : Nat → Nat)
    (XI0 AI0 y t : Nat) :
    pointer1bppColorAt F xorMask andMask XI0 AI0 y t =
      (if ¬(andMask (AI0 + t / 8) &&& (0x80 >>> (t % 8)) ≠ 0) ∧
          ¬(xorMask (XI0 + t / 8) &&& (0x80 >>> (t % 8)) ≠ 0) then
        FreeRDPGetColor F 0 0 0 0xFF
       else if ¬(andMask (AI0 + t / 8) &&& (0x80 >>> (t % 8)) ≠ 0) ∧
          (xorMask (XI0 + t / 8) &&& (0x80 >>> (t % 8)) ≠ 0) then
        FreeRDPGetColor F 0xFF 0xFF 0xFF 0xFF
       else if (andMask (AI0 + t / 8) &&& (0x80 >>> (t % 8)) ≠ 0) ∧
          ¬(xorMask (XI0 + t / 8) &&& (0x80 >>> (t % 8)) ≠ 0) then
        FreeRDPGetColor F 0 0 0 0
       else if (t + y) % 2 = 0 then FreeRDPGetColor F 0xFF 0xFF 0xFF 0xFF
       else FreeRDPGetColor F 0 0 0 0xFF) := by
  unfold pointer1bppColorAt freerdp_image_inverted_pointer_color
  by_cases hA : andMask (AI0 + t / 8) &&& (0x80 >>> (t % 8)) = 0 <;>
    by_cases hX : xorMask (XI0 + t / 8) &&& (0x80 >>> (t % 8)) = 0
  · simp [hA, hX]
  · simp [hA, hX]
  · simp [hA, hX]
  · simp only [hA, hX, Nat.and_one_is_mod]
    by_cases hp : (t + y) % 2 = 0 <;> simp [hA, hX, hp]

/-- Claim C6: in the 1-bpp pointer decode sub-path, mask rows are read
top-down (row `y` reads mask bytes at offset `step * y`, no vertical flip),
and each destination pixel is determined by its (AND bit, XOR bit) pair:
(0,0) yields opaque black, (0,1) opaque white, (1,0) a fully transparent
pixel (all channels and alpha 0), and (1,1) an "inverted" pixel rendered as
opaque white when `(x + y)` is even and opaque black when odd.  Stated on
the final memory for every pixel of the rectangle under the stride
invariant and the source's own mask-length checks. -/
theorem C6_pointer_1bpp_decode (F : PixelFormat)
    (nDstStep nXDst nYDst nWidth nHeight : Nat) (xorMask andMask : Nat → Nat)
    (xorMaskLength andMaskLength : Nat) (m : Mem) (x y : Nat)
    (hx : x < nWidth) (hy : y < nHeight)
    (hxorlen : ((nWidth + 7) / 8 + ((nWidth + 7) / 8) % 2) * nHeight ≤ xorMaskLength)
    (handlen : ((nWidth + 7) / 8 + ((nWidth + 7) / 8) % 2) * nHeight ≤ andMaskLength)
    (hstep : nWidth * FreeRDPGetBytesPerPixel F ≤ nDstStep) :
    (freerdp_image_copy_from_pointer_data_1bpp m F nDstStep nXDst nYDst nWidth nHeight
      xorMask xorMaskLength andMask andMaskLength 1).1 = true ∧
    readBytesBE
      (freerdp_image_copy_from_pointer_data_1bpp m F nDstStep nXDst nYDst nWidth nHeight
        xorMask xorMaskLength andMask andMaskLength 1).2
      (((nYDst + y) * nDstStep + (nXDst + x) * FreeRDPGetBytesPerPixel F : Nat) : Int)
      (FreeRDPGetBytesPerPixel F) =
      (if ¬(andMask (((nWidth + 7) / 8 + ((nWidth + 7) / 8) % 2) * y + x / 8) &&&
            (0x80 >>> (x % 8)) ≠ 0) ∧
          ¬(xorMask (((nWidth + 7) / 8 + ((nWidth + 7) / 8) % 2) * y + x / 8) &&&
            (0x80 >>> (x % 8)) ≠ 0) then
        FreeRDPGetColor F 0 0 0 0xFF
       else if ¬(andMask (((nWidth + 7) / 8 + ((nWidth + 7) / 8) % 2) * y + x / 8) &&&
            (0x80 >>> (x % 8)) ≠ 0) ∧
          (xorMask (((nWidth + 7) / 8 + ((nWidth + 7) / 8) % 2) * y + x / 8) &&&
            (0x80 >>> (x % 8)) ≠ 0) then
        FreeRDPGetColor F 0xFF 0xFF 0xFF 0xFF
       else if (andMask (((nWidth + 7) / 8 + ((nWidth + 7) / 8) % 2) * y + x / 8) &&&
            (0x80 >>> (x % 8)) ≠ 0) ∧
          ¬(xorMask (((nWidth + 7) / 8 + ((nWidth + 7) / 8) % 2) * y + x / 8) &&&
            (0x80 >>> (x % 8)) ≠ 0) then
        FreeRDPGetColor F 0 0 0 0
       else if (x + y) % 2 = 0 then FreeRDPGetColor F 0xFF 0xFF 0xFF 0xFF
       else FreeRDPGetColor F 0 0 0 0xFF) % 2 ^ (8 * FreeRDPGetBytesPerPixel F) := by
  set B := FreeRDPGetBytesPerPixel F with hB
  set S := (nWidth + 7) / 8 + ((nWidth + 7) / 8) % 2 with hS
  have hS1 : 1 ≤ S := by
    have : 1 ≤ (nWidth + 7) / 8 := by omega
    omega
  have hxl : xorMaskLength ≠ 0 := by
    have h1 : 1 * 1 ≤ S * nHeight := Nat.mul_le_mul hS1 (by omega)
    omega
  have hal : andMaskLength ≠ 0 := by
    have h1 : 1 * 1 ≤ S * nHeight := Nat.mul_le_mul hS1 (by omega)
    omega
  have hres : freerdp_image_copy_from_pointer_data_1bpp m F nDstStep nXDst nYDst nWidth
      nHeight xorMask xorMaskLength andMask andMaskLength 1 =
      (true, pointer1bppRows F nDstStep nXDst nYDst xorMask andMask S S nWidth nHeight
        false nHeight 0 m) := by
    simp only [freerdp_image_copy_from_pointer_data_1bpp]
    rw [← hS]
    rw [if_neg hxl, if_neg hal, if_neg (by omega), if_neg (by omega)]
    rfl
  rw [hres]
  refine ⟨rfl, ?_⟩
  have hrow : ∀ (y' : Nat) (mm : Mem),
      pointer1bppRow F y' xorMask andMask nWidth 0
        ((nYDst + y') * nDstStep + nXDst * B) (S * y') 0x80 (S * y') 0x80 mm =
      pixelRowWrite F
        (fun t => (((nYDst + y') * nDstStep + (nXDst + t) * B : Nat) : Int))
        (pointer1bppColorAt F xorMask andMask (S * y') (S * y') y') nWidth 0 mm := by
    intro y' mm
    have h := pointer1bppRow_eq_pixelRowWrite F y' xorMask andMask (S * y') (S * y')
      ((nYDst + y') * nDstStep) nXDst nWidth 0 mm
    simpa using h
  show readBytesBE (pointer1bppRows F nDstStep nXDst nYDst xorMask andMask S S nWidth
    nHeight false nHeight 0 m) _ B = _
  rw [pointer1bppRows_eq_rowsApply]
  rw [rowsApply_read
    (fun y' mm => pointer1bppRow F y' xorMask andMask nWidth 0
      ((nYDst + y') * nDstStep + nXDst * B)
      (if false then S * (nHeight - y' - 1) else S * y') 0x80
      (if false then S * (nHeight - y' - 1) else S * y') 0x80 mm)
    (fun y' i => i < (((nYDst + y') * nDstStep + nXDst * B : Nat) : Int) ∨
      (((nYDst + y') * nDstStep + (nXDst + nWidth) * B : Nat) : Int) ≤ i)
    (fun y' mm i hh => by
      dsimp only at hh ⊢
      show pointer1bppRow F y' xorMask andMask nWidth 0
        ((nYDst + y') * nDstStep + nXDst * B) (S * y') 0x80 (S * y') 0x80 mm i = mm i
      rw [hrow y' mm]
      exact rowWrite_frame_std F _ _ _ _ _ i hh)
    (((nYDst + y) * nDstStep + (nXDst + x) * B : Nat) : Int) B y nHeight 0 m
    (Nat.zero_le y) (by omega)
    (fun y' hy1 _ i _ hi2 => Or.inl (by
      have hsep := row_separation nDstStep B nXDst nYDst nWidth x y y' hx hy1 hstep
      omega))]
  simp only [Bool.false_eq_true, if_false]
  rw [hrow y _]
  have hrd := rowWrite_read_std F ((nYDst + y) * nDstStep) nXDst
    (pointer1bppColorAt F xorMask andMask (S * y) (S * y) y) nWidth x hx
    (rowsApply
      (fun y' mm => pointer1bppRow F y' xorMask andMask nWidth 0
        ((nYDst + y') * nDstStep + nXDst * B) (S * y') 0x80 (S * y') 0x80 mm)
      (y - 0) 0 m)
  rw [pointer1bppColorAt_claim_table] at hrd
  exact hrd

/-- Witness for C6: the spec's own 2x2 example (AND mask all clear, XOR mask
`10` in the first row): pixel (0,0) decodes to opaque white and pixel (1,0)
to opaque black, read back from the final `ARGB32` memory. -/
theorem C6_pointer_1bpp_decode_witness :
    (freerdp_image_copy_from_pointer_data_1bpp (fun _ => 0) .ARGB32 8 0 0 2 2
      (fun i => if i = 0 then 0x80 else 0) 4 (fun _ => 0) 4 1).1 = true ∧
    readBytesBE
      (freerdp_image_copy_from_pointer_data_1bpp (fun _ => 0) .ARGB32 8 0 0 2 2
        (fun i => if i = 0 then 0x80 else 0) 4 (fun _ => 0) 4 1).2 0 4 = 0xFFFFFFFF ∧
    readBytesBE
      (freerdp_image_copy_from_pointer_data_1bpp (fun _ => 0) .ARGB32 8 0 0 2 2
        (fun i => if i = 0 then 0x80 else 0) 4 (fun _ => 0) 4 1).2 4 4 = 0xFF000000 := by
  have h0 := C6_pointer_1bpp_decode .ARGB32 8 0 0 2 2
    (fun i => if i = 0 then 0x80 else 0) (fun _ => 0) 4 4 (fun _ => 0) 0 0
    (by decide) (by decide) (by decide) (by decide) (by decide)
  have h1 := C6_pointer_1bpp_decode .ARGB32 8 0 0 2 2
    (fun i => if i = 0 then 0x80 else 0) (fun _ => 0) 4 4 (fun _ => 0) 1 0
    (by decide) (by decide) (by decide) (by decide) (by decide)
  exact ⟨h0.1, h0.2.trans (by decide), h1.2.trans (by decide)⟩

/-! ### Icon decode (C8) -/

/-- `div_ceil` (color.c lines 170-173). -/
def div_ceil (a b : Nat) : Nat := (a + (b - 1)) / b

/-- `round_up` (color.c lines 175-178). -/
def round_up (a b : Nat) : Nat := b * div_ceil a b

/-- Copy flags.  Modelled from the spec: vertical flip (read source
scanlines bottom-to-top) and keep-destination-alpha. -/
structure CopyFlags where
  vFlip : Bool
  keepDstAlpha : Bool

/-- Modelled from the spec: the pluggable `copy_no_overlap` backend contract
of §4.3 — `copyNoOverlap(dst, dstFormat, dstStep, dstX, dstY, width, height,
src, srcFormat, srcStep, srcX, srcY, palette, flags) -> success`, operating
on one byte-addressed memory with integer base pointers. -/
def CopyNoOverlapBackend : Type :=
  Mem → Int → PixelFormat → Nat → Nat → Nat → Nat → Nat →
    Int → PixelFormat → Nat → Nat → Nat → Option gdiPalette → CopyFlags → Bool × Mem

/-- `freerdp_image_copy_no_overlap` (color.c lines 1604-1622): delegates to
the process-wide `prims->copy_no_overlap` backend; the lazily-initialized
handle is modelled as an explicit backend argument (the spec's §9 explicit
context object), and the debug-only `WINPR_ASSERT`s are no-ops. -/
def freerdp_image_copy_no_overlap (backend : CopyNoOverlapBackend) (m : Mem)
    (pDst : Int) (DstFormat : PixelFormat) (nDstStep nXDst nYDst nWidth nHeight : Nat)
    (pSrc : Int) (SrcFormat : PixelFormat) (nSrcStep nXSrc nYSrc : Nat)
    (palette : Option gdiPalette) (flags : CopyFlags) : Bool × Mem :=
  backend m pDst DstFormat nDstStep nXDst nYDst nWidth nHeight pSrc SrcFormat nSrcStep
    nXSrc nYSrc palette flags

/-- `fill_gdi_palette_for_icon` (color.c lines 147-168): the palette format
is `BGRX32` and all 256 entries start at zero; a present color table is
loaded only when its byte length is a nonzero multiple of 4 encoding at
most 256 entries, reading entry `i` from `colorTable[4*i]`.  The imperative
entry-filling loop (each entry written once, independently) is embedded as
the table of its final values. -/
def fill_gdi_palette_for_icon (colorTable : Mem) (cbColorTable : Nat) : gdiPalette :=
  if cbColorTable = 0 then ⟨.BGRX32, fun _ => 0⟩
  else if cbColorTable % 4 ≠ 0 ∨ cbColorTable / 4 > 256 then ⟨.BGRX32, fun _ => 0⟩
  else
    ⟨.BGRX32, fun i =>
      if i < cbColorTable / 4 then FreeRDPReadColor_int colorTable (4 * i) .BGRX32 else 0⟩

/-- The icon `bpp` to pixel-format mapping of the `switch` in
`freerdp_image_copy_from_icon_data` (color.c lines 198-231): 8 is `RGB8`,
16 is `RGB15` (not RGB565), 24 is `RGB24`, 32 is `BGRA32`; 1/4-bpp and
anything else are rejected. -/
def iconFormatOfBpp : Nat → Option PixelFormat
  | 8 => some PixelFormat.RGB8
  | 16 => some PixelFormat.RGB15
  | 24 => some PixelFormat.RGB24
  | 32 => some PixelFormat.BGRA32
  | _ => none

/-- Inner pixel loop of the icon alpha-mask pass (color.c lines 266-284):
reads the destination pixel back, replaces its alpha with `0x00` where the
mask bit is set and `0xFF` where clear, rewrites it, and advances the
tightly-walking destination cursor.  Returns the advanced cursor and the
memory. -/
def iconMaskRow (F : PixelFormat) (pal : gdiPalette) (bitsMask : Nat → Nat) :
    Nat → Nat → Nat → Int → Mem → Int × Mem
  | 0, _, _, d, m => (d, m)
  | w + 1, maskIdx, nextBit, d, m =>
      let alpha := if bitsMask maskIdx &&& nextBit ≠ 0 then 0x00 else 0xFF
      let color := FreeRDPReadColor_int m d F
      let c := FreeRDPSplitColor color F (some pal)
      let color2 := FreeRDPGetColor F c.r c.g c.b alpha
      let m2 := FreeRDPWriteColor_int m d F color2
      let nextBit2 := nextBit >>> 1
      let d2 := d + FreeRDPGetBytesPerPixel F
      if nextBit2 = 0 then iconMaskRow F pal bitsMask w (maskIdx + 1) 0x80 d2 m2
      else iconMaskRow F pal bitsMask w maskIdx nextBit2 d2 m2

/-- Outer row loop of the icon alpha-mask pass (color.c lines 261-285):
mask rows are read bottom-up at stride `round_up(div_ceil(width, 8), 4)`;
the destination cursor runs tightly across rows. -/
def iconMaskRows (F : PixelFormat) (pal : gdiPalette) (bitsMask : Nat → Nat)
    (stride nWidth nHeight : Nat) : Nat → Nat → Int → Mem → Mem
  | 0, _, _, m => m
  | h + 1, y, d, m =>
      let r := iconMaskRow F pal bitsMask nWidth (stride * (nHeight - 1 - y)) 0x80 d m
      iconMaskRows F pal bitsMask stride nWidth nHeight h (y + 1) r.1 r.2

/-- The icon alpha-mask pass (color.c lines 243-286). -/
def iconMaskPass (m : Mem) (pDst : Int) (F : PixelFormat) (pal : gdiPalette)
    (bitsMask : Nat → Nat) (nWidth nHeight : Nat) : Mem :=
  let stride := round_up (div_ceil nWidth 8) 4
  iconMaskRows F pal bitsMask stride nWidth nHeight nHeight 0 pDst m

/-- `freerdp_image_copy_from_icon_data` (color.c lines 180-289).  The null
checks on `pDstData`/`bitsColor` are outside the byte-map model; the color
payload pointer is `pBitsColor` in the shared memory, the mask and color
table are read-only buffers. -/
def freerdp_image_copy_from_icon_data (backend : CopyNoOverlapBackend) (m : Mem)
    (pDst : Int) (DstFormat : PixelFormat) (nDstStep nXDst nYDst nWidth nHeight : Nat)
    (pBitsColor : Int) (cbBitsColor : Nat) (bitsMask : Nat → Nat) (cbBitsMask : Nat)
    (colorTable : Mem) (cbColorTable : Nat) (bpp : Nat) : Bool × Mem :=
  match iconFormatOfBpp bpp with
  | none => (false, m)
  | some format =>
    if cbBitsColor < nWidth * nHeight * FreeRDPGetBytesPerPixel format then (false, m)
    else
      let palette := fill_gdi_palette_for_icon colorTable cbColorTable
      let r := freerdp_image_copy_no_overlap backend m pDst DstFormat nDstStep nXDst
        nYDst nWidth nHeight pBitsColor format 0 0 0 (some palette) ⟨true, false⟩
      if r.1 = false then (false, r.2)
      else if FreeRDPColorHasAlpha DstFormat = true ∧ cbBitsMask ≠ 0 then
        (true, iconMaskPass r.2 pDst DstFormat palette bitsMask nWidth nHeight)
      else (true, r.2)

/-- Claim C8: calling `freerdp_image_copy_from_icon_data` with a
`colorTable` whose byte length is not a multiple of 4, or which would
encode more than 256 entries, still succeeds when its other preconditions
hold: the malformed table is ignored (the palette used for decoding is
`BGRX32` with all entries zero), no byte of the supplied color table is
read (the result is identical for every color-table content), and the call
returns `TRUE`. -/
theorem C8_icon_malformed_color_table (backend : CopyNoOverlapBackend) (m : Mem)
    (pDst : Int) (DstFormat : PixelFormat) (nDstStep nXDst nYDst nWidth nHeight : Nat)
    (pBitsColor : Int) (cbBitsColor : Nat) (bitsMask : Nat → Nat) (cbBitsMask : Nat)
    (colorTable colorTable' : Mem) (cbColorTable : Nat) (bpp : Nat)
    (format : PixelFormat)
    (hbad : cbColorTable % 4 ≠ 0 ∨ cbColorTable / 4 > 256)
    (hfmt : iconFormatOfBpp bpp = some format)
    (hlen : nWidth * nHeight * FreeRDPGetBytesPerPixel format ≤ cbBitsColor)
    (hbackend : (backend m pDst DstFormat nDstStep nXDst nYDst nWidth nHeight pBitsColor
      format 0 0 0 (some ⟨.BGRX32, fun _ => 0⟩) ⟨true, false⟩).1 = true) :
    fill_gdi_palette_for_icon colorTable cbColorTable = ⟨.BGRX32, fun _ => 0⟩ ∧
    freerdp_image_copy_from_icon_data backend m pDst DstFormat nDstStep nXDst nYDst
      nWidth nHeight pBitsColor cbBitsColor bitsMask cbBitsMask colorTable cbColorTable
      bpp =
      freerdp_image_copy_from_icon_data backend m pDst DstFormat nDstStep nXDst nYDst
        nWidth nHeight pBitsColor cbBitsColor bitsMask cbBitsMask colorTable'
        cbColorTable bpp ∧
    (freerdp_image_copy_from_icon_data backend m pDst DstFormat nDstStep nXDst nYDst
      nWidth nHeight pBitsColor cbBitsColor bitsMask cbBitsMask colorTable cbColorTable
      bpp).1 = true := by
  have hzero : ∀ ct : Mem,
      fill_gdi_palette_for_icon ct cbColorTable = ⟨.BGRX32, fun _ => 0⟩ := by
    intro ct
    unfold fill_gdi_palette_for_icon
    by_cases h0 : cbColorTable = 0
    · rw [if_pos h0]
    · rw [if_neg h0, if_pos hbad]
  refine ⟨hzero colorTable, ?_, ?_⟩
  · unfold freerdp_image_copy_from_icon_data
    rw [hfmt]
    rw [hzero colorTable, hzero colorTable']
  · unfold freerdp_image_copy_from_icon_data
    rw [hfmt]
    simp only [hzero colorTable]
    rw [if_neg (by omega)]
    simp only [freerdp_image_copy_no_overlap]
    rw [if_neg (by rw [hbackend]; exact fun h => Bool.true_eq_false.mp h)]
    by_cases hmask : FreeRDPColorHasAlpha DstFormat = true ∧ cbBitsMask ≠ 0
    · rw [if_pos hmask]
    · rw [if_neg hmask]

/-- Witness for C8: a 5-byte color table (length not a multiple of 4) with
a 1x1 `BGRA32` icon payload and the reference backend stubbed to a
successful no-op: the palette is all-zero, the result does not depend on
the color-table bytes, and the call succeeds. -/
theorem C8_icon_malformed_color_table_witness :
    fill_gdi_palette_for_icon (fun _ => 0xAB) 5 = ⟨.BGRX32, fun _ => 0⟩ ∧
    freerdp_image_copy_from_icon_data
        (fun m _ _ _ _ _ _ _ _ _ _ _ _ _ _ => (true, m)) (fun _ => 0) 0 .BGRA32 4 0 0 1 1
        100 4 (fun _ => 0) 0 (fun _ => 0xAB) 5 32 =
      freerdp_image_copy_from_icon_data
        (fun m _ _ _ _ _ _ _ _ _ _ _ _ _ _ => (true, m)) (fun _ => 0) 0 .BGRA32 4 0 0 1 1
        100 4 (fun _ => 0) 0 (fun _ => 0xCD) 5 32 ∧
    (freerdp_image_copy_from_icon_data
        (fun m _ _ _ _ _ _ _ _ _ _ _ _ _ _ => (true, m)) (fun _ => 0) 0 .BGRA32 4 0 0 1 1
        100 4 (fun _ => 0) 0 (fun _ => 0xAB) 5 32).1 = true :=
  C8_icon_malformed_color_table (fun m _ _ _ _ _ _ _ _ _ _ _ _ _ _ => (true, m))
    (fun _ => 0) 0 .BGRA32 4 0 0 1 1 100 4 (fun _ => 0) 0 (fun _ => 0xAB) (fun _ => 0xCD)
    5 32 .BGRA32 (by decide) rfl (by decide) rfl

/-! ### Region Copy Engine loops (C5, C10) -/

/-- Inner loop of `freerdp_image_copy_bgr24_bgrx32` (color.c lines 592-597):
copies bytes 0..2 of each pixel, source pixels at 3-byte offsets,
destination pixels at 4-byte offsets. -/
def bgr24RowCopy (dstLine srcLine : Int) (nXDst nXSrc : Nat) : Nat → Nat → Mem → Mem
  | 0, _, m => m
  | w + 1, x, m =>
      let m0 := writeByte m (dstLine + ((x + nXDst) * 4 + 0 : Nat))
        (m (srcLine + ((x + nXSrc) * 3 + 0 : Nat)))
      let m1 := writeByte m0 (dstLine + ((x + nXDst) * 4 + 1 : Nat))
        (m0 (srcLine + ((x + nXSrc) * 3 + 1 : Nat)))
      let m2 := writeByte m1 (dstLine + ((x + nXDst) * 4 + 2 : Nat))
        (m1 (srcLine + ((x + nXSrc) * 3 + 2 : Nat)))
      bgr24RowCopy dstLine srcLine nXDst nXSrc w (x + 1) m2

/-- `freerdp_image_copy_bgr24_bgrx32` (color.c lines 573-601). -/
def freerdp_image_copy_bgr24_bgrx32 (pDst : Int) (nDstStep nXDst nYDst : Nat)
    (nWidth nHeight : Nat) (pSrc : Int) (nSrcStep nXSrc nYSrc : Nat)
    (srcVMultiplier srcVOffset dstVMultiplier dstVOffset : Int) : Nat → Nat → Mem → Mem
  | 0, _, mm => mm
  | hh + 1, y, mm =>
      let srcLine : Int := pSrc + srcVMultiplier * ((y + nYSrc : Nat) : Int) * nSrcStep +
        srcVOffset
      let dstLine : Int := pDst + dstVMultiplier * ((y + nYDst : Nat) : Int) * nDstStep +
        dstVOffset
      freerdp_image_copy_bgr24_bgrx32 pDst nDstStep nXDst nYDst nWidth nHeight pSrc
        nSrcStep nXSrc nYSrc srcVMultiplier srcVOffset dstVMultiplier dstVOffset hh
        (y + 1) (bgr24RowCopy dstLine srcLine nXDst nXSrc nWidth 0 mm)

/-- Inner loop of `freerdp_image_copy_bgrx32_bgrx32` (color.c lines 622-627):
copies bytes 0..2 of each 4-byte pixel. -/
def bgrx32RowCopy (dstLine srcLine : Int) (nXDst nXSrc : Nat) : Nat → Nat → Mem → Mem
  | 0, _, m => m
  | w + 1, x, m =>
      let m0 := writeByte m (dstLine + ((x + nXDst) * 4 + 0 : Nat))
        (m (srcLine + ((x + nXSrc) * 4 + 0 : Nat)))
      let m1 := writeByte m0 (dstLine + ((x + nXDst) * 4 + 1 : Nat))
        (m0 (srcLine + ((x + nXSrc) * 4 + 1 : Nat)))
      let m2 := writeByte m1 (dstLine + ((x + nXDst) * 4 + 2 : Nat))
        (m1 (srcLine + ((x + nXSrc) * 4 + 2 : Nat)))
      bgrx32RowCopy dstLine srcLine nXDst nXSrc w (x + 1) m2

/-- `freerdp_image_copy_bgrx32_bgrx32` (color.c lines 603-631). -/
def freerdp_image_copy_bgrx32_bgrx32 (pDst : Int) (nDstStep nXDst nYDst : Nat)
    (nWidth nHeight : Nat) (pSrc : Int) (nSrcStep nXSrc nYSrc : Nat)
    (srcVMultiplier srcVOffset dstVMultiplier dstVOffset : Int) : Nat → Nat → Mem → Mem
  | 0, _, mm => mm
  | hh + 1, y, mm =>
      let srcLine : Int := pSrc + srcVMultiplier * ((y + nYSrc : Nat) : Int) * nSrcStep +
        srcVOffset
      let dstLine : Int := pDst + dstVMultiplier * ((y + nYDst : Nat) : Int) * nDstStep +
        dstVOffset
      freerdp_image_copy_bgrx32_bgrx32 pDst nDstStep nXDst nYDst nWidth nHeight pSrc
        nSrcStep nXSrc nYSrc srcVMultiplier srcVOffset dstVMultiplier dstVOffset hh
        (y + 1) (bgrx32RowCopy dstLine srcLine nXDst nXSrc nWidth 0 mm)

/-- Tail of the inner loop of `freerdp_image_copy_generic` (color.c lines
654-669): both source and destination pixels are addressed at FIXED 4-byte
offsets (`srcByte = dstByte = 4`) regardless of the formats' actual
bytes-per-pixel; runs of identical source pixels reuse the previously
converted color. -/
def genericRowRest (SrcFormat DstFormat : PixelFormat) (pal : Option gdiPalette)
    (srcLine dstLine : Int) (nXSrc nXDst : Nat) :
    Nat → Nat → Nat → Nat → Mem → Mem
  | 0, _, _, _, m => m
  | w + 1, x, oldColor, dstColor, m =>
      let color := FreeRDPReadColor_int m (srcLine + ((x + nXSrc) * 4 : Nat)) SrcFormat
      if color = oldColor then
        genericRowRest SrcFormat DstFormat pal srcLine dstLine nXSrc nXDst w (x + 1)
          oldColor dstColor
          (FreeRDPWriteColorIgnoreAlpha_int m (dstLine + ((x + nXDst) * 4 : Nat)) DstFormat
            dstColor)
      else
        genericRowRest SrcFormat DstFormat pal srcLine dstLine nXSrc nXDst w (x + 1)
          color (FreeRDPConvertColor color SrcFormat DstFormat pal)
          (FreeRDPWriteColorIgnoreAlpha_int m (dstLine + ((x + nXDst) * 4 : Nat)) DstFormat
            (FreeRDPConvertColor color SrcFormat DstFormat pal))

/-- One row of `freerdp_image_copy_generic` (color.c lines 650-669): the
first pixel is converted and written unconditionally, then the remaining
`nWidth - 1` pixels run through `genericRowRest`. -/
def genericRow (SrcFormat DstFormat : PixelFormat) (pal : Option gdiPalette)
    (srcLine dstLine : Int) (nXSrc nXDst nWidth : Nat) (m : Mem) : Mem :=
  let color := FreeRDPReadColor_int m (srcLine + (nXSrc * 4 : Nat)) SrcFormat
  let dstColor := FreeRDPConvertColor color SrcFormat DstFormat pal
  let m1 := FreeRDPWriteColorIgnoreAlpha_int m (dstLine + (nXDst * 4 : Nat)) DstFormat
    dstColor
  genericRowRest SrcFormat DstFormat pal srcLine dstLine nXSrc nXDst (nWidth - 1) 1 color
    dstColor m1

/-- Row loop of `freerdp_image_copy_generic` (color.c lines 643-670). -/
def genericRows (SrcFormat DstFormat : PixelFormat) (pal : Option gdiPalette)
    (pSrc pDst : Int) (nSrcStep nDstStep nXSrc nXDst nYSrc nYDst nWidth : Nat)
    (srcVMultiplier srcVOffset dstVMultiplier dstVOffset : Int) : Nat → Nat → Mem → Mem
  | 0, _, m => m
  | h + 1, y, m =>
      genericRows SrcFormat DstFormat pal pSrc pDst nSrcStep nDstStep nXSrc nXDst nYSrc
        nYDst nWidth srcVMultiplier srcVOffset dstVMultiplier dstVOffset h (y + 1)
        (genericRow SrcFormat DstFormat pal
          (pSrc + srcVMultiplier * ((y + nYSrc : Nat) : Int) * nSrcStep + srcVOffset)
          (pDst + dstVMultiplier * ((y + nYDst : Nat) : Int) * nDstStep + dstVOffset)
          nXSrc nXDst nWidth m)

/-- `freerdp_image_copy_generic` (color.c lines 633-673). -/
def freerdp_image_copy_generic (m : Mem) (pDst : Int) (DstFormat : PixelFormat)
    (nDstStep nXDst nYDst nWidth nHeight : Nat) (pSrc : Int) (SrcFormat : PixelFormat)
    (nSrcStep nXSrc nYSrc : Nat) (pal : Option gdiPalette)
    (srcVMultiplier srcVOffset dstVMultiplier dstVOffset : Int) : Bool × Mem :=
  (true, genericRows SrcFormat DstFormat pal pSrc pDst nSrcStep nDstStep nXSrc nXDst nYSrc
    nYDst nWidth srcVMultiplier srcVOffset dstVMultiplier dstVOffset nHeight 0 m)

/-- `freerdp_image_copy_no_overlap_dst_alpha` (color.c lines 675-718):
dedicated fast paths for `BGR24 -> BGRX32/BGRA32` and
`BGRX32/BGRA32 -> BGRX32/BGRA32`, everything else falls back to
`freerdp_image_copy_generic`. -/
def freerdp_image_copy_no_overlap_dst_alpha (m : Mem) (pDst : Int)
    (DstFormat : PixelFormat) (nDstStep nXDst nYDst nWidth nHeight : Nat) (pSrc : Int)
    (SrcFormat : PixelFormat) (nSrcStep nXSrc nYSrc : Nat) (pal : Option gdiPalette)
    (srcVMultiplier srcVOffset dstVMultiplier dstVOffset : Int) : Bool × Mem :=
  match SrcFormat, DstFormat with
  | .BGR24, .BGRX32 | .BGR24, .BGRA32 =>
      (true, freerdp_image_copy_bgr24_bgrx32 pDst nDstStep nXDst nYDst nWidth nHeight
        pSrc nSrcStep nXSrc nYSrc srcVMultiplier srcVOffset dstVMultiplier dstVOffset
        nHeight 0 m)
  | .BGRX32, .BGRX32 | .BGRX32, .BGRA32 | .BGRA32, .BGRX32 | .BGRA32, .BGRA32 =>
      (true, freerdp_image_copy_bgrx32_bgrx32 pDst nDstStep nXDst nYDst nWidth nHeight
        pSrc nSrcStep nXSrc nYSrc srcVMultiplier srcVOffset dstVMultiplier dstVOffset
        nHeight 0 m)
  | _, _ =>
      freerdp_image_copy_generic m pDst DstFormat nDstStep nXDst nYDst nWidth nHeight pSrc
        SrcFormat nSrcStep nXSrc nYSrc pal srcVMultiplier srcVOffset dstVMultiplier
        dstVOffset

/-- The `memcpy`/`memmove` of one scanline as a simultaneous byte-range
copy (the semantics of `memmove`; the source uses `memcpy` only on the
row-disjoint vertical branches). -/
def memcpyBytes (m : Mem) (dst src : Int) (n : Nat) : Mem :=
  fun i => if dst ≤ i ∧ i < dst + n then m (src + (i - dst)) else m i

/-- Reverse row loop: apply `rowFn y` for `y = k-1, k-2, ..., 0` (the
source's `for (y = nHeight - 1; y >= 0; y--)`). -/
def rowsApplyRev (rowFn : Nat → Mem → Mem) : Nat → Mem → Mem
  | 0, m => m
  | k + 1, m => rowsApplyRev rowFn k (rowFn k m)

/-- One scanline copy of the equal-format overlap branches (color.c lines
772-811). -/
def overlapMemcpyRow (pSrc pDst : Int) (nSrcStep nDstStep nYSrc nYDst : Nat)
    (srcVMultiplier srcVOffset dstVMultiplier dstVOffset : Int)
    (xSrcOffset xDstOffset copyDstWidth : Nat) (y : Nat) (m : Mem) : Mem :=
  memcpyBytes m
    (pDst + dstVMultiplier * ((y + nYDst : Nat) : Int) * nDstStep + dstVOffset +
      (xDstOffset : Nat))
    (pSrc + srcVMultiplier * ((y + nYSrc : Nat) : Int) * nSrcStep + srcVOffset +
      (xSrcOffset : Nat))
    copyDstWidth

/-- Tail of the differing-format per-pixel loop of
`freerdp_image_copy_overlap` (color.c lines 829-842): true bytes-per-pixel
addressing, `FreeRDPWriteColor_int` writes, same-color run caching. -/
def overlapGenericRowRest (SrcFormat DstFormat : PixelFormat) (pal : Option gdiPalette)
    (srcLine dstLine : Int) (nXSrc nXDst srcByte dstByte : Nat) :
    Nat → Nat → Nat → Nat → Mem → Mem
  | 0, _, _, _, m => m
  | w + 1, x, oldColor, dstColor, m =>
      let color := FreeRDPReadColor_int m (srcLine + ((x + nXSrc) * srcByte : Nat))
        SrcFormat
      if color = oldColor then
        overlapGenericRowRest SrcFormat DstFormat pal srcLine dstLine nXSrc nXDst srcByte
          dstByte w (x + 1) oldColor dstColor
          (FreeRDPWriteColor_int m (dstLine + ((x + nXDst) * dstByte : Nat)) DstFormat
            dstColor)
      else
        overlapGenericRowRest SrcFormat DstFormat pal srcLine dstLine nXSrc nXDst srcByte
          dstByte w (x + 1) color (FreeRDPConvertColor color SrcFormat DstFormat pal)
          (FreeRDPWriteColor_int m (dstLine + ((x + nXDst) * dstByte : Nat)) DstFormat
            (FreeRDPConvertColor color SrcFormat DstFormat pal))

/-- One row of the differing-format overlap branch (color.c lines 820-843). -/
def overlapGenericRow (SrcFormat DstFormat : PixelFormat) (pal : Option gdiPalette)
    (srcLine dstLine : Int) (nXSrc nXDst srcByte dstByte nWidth : Nat) (m : Mem) : Mem :=
  let color := FreeRDPReadColor_int m (srcLine + (nXSrc * srcByte : Nat)) SrcFormat
  let dstColor := FreeRDPConvertColor color SrcFormat DstFormat pal
  let m1 := FreeRDPWriteColor_int m (dstLine + (nXDst * dstByte : Nat)) DstFormat dstColor
  overlapGenericRowRest SrcFormat DstFormat pal srcLine dstLine nXSrc nXDst srcByte
    dstByte (nWidth - 1) 1 color dstColor m1

/-- Row loop of the differing-format overlap branch (color.c lines 820-843). -/
def overlapGenericRows (SrcFormat DstFormat : PixelFormat) (pal : Option gdiPalette)
    (pSrc pDst : Int) (nSrcStep nDstStep nXSrc nXDst nYSrc nYDst : Nat)
    (srcByte dstByte nWidth : Nat)
    (srcVMultiplier srcVOffset dstVMultiplier dstVOffset : Int) : Nat → Nat → Mem → Mem
  | 0, _, m => m
  | h + 1, y, m =>
      overlapGenericRows SrcFormat DstFormat pal pSrc pDst nSrcStep nDstStep nXSrc nXDst
        nYSrc nYDst srcByte dstByte nWidth srcVMultiplier srcVOffset dstVMultiplier
        dstVOffset h (y + 1)
        (overlapGenericRow SrcFormat DstFormat pal
          (pSrc + srcVMultiplier * ((y + nYSrc : Nat) : Int) * nSrcStep + srcVOffset)
          (pDst + dstVMultiplier * ((y + nYDst : Nat) : Int) * nDstStep + dstVOffset)
          nXSrc nXDst srcByte dstByte nWidth m)

/-- `freerdp_image_copy_overlap` (color.c lines 720-847).  Null pointers
are modelled as address 0; the debug-only `WINPR_ASSERT(overlapping(...))`
is a no-op. -/
def freerdp_image_copy_overlap (m : Mem) (pDst : Int) (DstFormat : PixelFormat)
    (nDstStep0 nXDst nYDst nWidth nHeight : Nat) (pSrc : Int) (SrcFormat : PixelFormat)
    (nSrcStep0 nXSrc nYSrc : Nat) (palette : Option gdiPalette) (flags : CopyFlags) :
    Bool × Mem :=
  let dstByte := FreeRDPGetBytesPerPixel DstFormat
  let srcByte := FreeRDPGetBytesPerPixel SrcFormat
  let copyDstWidth := nWidth * dstByte
  let xSrcOffset := nXSrc * srcByte
  let xDstOffset := nXDst * dstByte
  let vSrcVFlip := flags.vFlip
  if nWidth = 0 ∨ nHeight = 0 then (true, m)
  else if nHeight > 0x7FFFFFFF ∨ nWidth > 0x7FFFFFFF then (false, m)
  else if pDst = 0 ∨ pSrc = 0 then (false, m)
  else
    let nDstStep := if nDstStep0 = 0 then nWidth * FreeRDPGetBytesPerPixel DstFormat
      else nDstStep0
    let nSrcStep := if nSrcStep0 = 0 then nWidth * FreeRDPGetBytesPerPixel SrcFormat
      else nSrcStep0
    let srcVOffset : Int := if vSrcVFlip then (((nHeight - 1) * nSrcStep : Nat) : Int)
      else 0
    let srcVMultiplier : Int := if vSrcVFlip then -1 else 1
    let dstVOffset : Int := 0
    let dstVMultiplier : Int := 1
    if flags.keepDstAlpha = true ∧ FreeRDPColorHasAlpha DstFormat = true then
      freerdp_image_copy_no_overlap_dst_alpha m pDst DstFormat nDstStep nXDst nYDst
        nWidth nHeight pSrc SrcFormat nSrcStep nXSrc nYSrc palette srcVMultiplier
        srcVOffset dstVMultiplier dstVOffset
    else if FreeRDPAreColorFormatsEqualNoAlpha_int SrcFormat DstFormat = true then
      if nYDst < nYSrc then
        (true, rowsApply
          (overlapMemcpyRow pSrc pDst nSrcStep nDstStep nYSrc nYDst srcVMultiplier
            srcVOffset dstVMultiplier dstVOffset xSrcOffset xDstOffset copyDstWidth)
          nHeight 0 m)
      else if nYDst > nYSrc then
        (true, rowsApplyRev
          (overlapMemcpyRow pSrc pDst nSrcStep nDstStep nYSrc nYDst srcVMultiplier
            srcVOffset dstVMultiplier dstVOffset xSrcOffset xDstOffset copyDstWidth)
          nHeight m)
      else if nXSrc > nXDst then
        (true, rowsApply
          (overlapMemcpyRow pSrc pDst nSrcStep nDstStep nYSrc nYDst srcVMultiplier
            srcVOffset dstVMultiplier dstVOffset xSrcOffset xDstOffset copyDstWidth)
          nHeight 0 m)
      else if nXSrc < nXDst then
        (true, rowsApplyRev
          (overlapMemcpyRow pSrc pDst nSrcStep nDstStep nYSrc nYDst srcVMultiplier
            srcVOffset dstVMultiplier dstVOffset xSrcOffset xDstOffset copyDstWidth)
          nHeight m)
      else (true, m)
    else
      (true, overlapGenericRows SrcFormat DstFormat palette pSrc pDst nSrcStep nDstStep
        nXSrc nXDst nYSrc nYDst srcByte dstByte nWidth srcVMultiplier srcVOffset
        dstVMultiplier dstVOffset nHeight 0 m)

/-- `freerdp_image_copy` (color.c lines 849-881): validate, resolve zero
strides to `nWidth * bytesPerPixel`, detect overlap, dispatch. -/
def freerdp_image_copy (backend : CopyNoOverlapBackend) (m : Mem) (pDst : Int)
    (DstFormat : PixelFormat) (nDstStep0 nXDst nYDst nWidth nHeight : Nat) (pSrc : Int)
    (SrcFormat : PixelFormat) (nSrcStep0 nXSrc nYSrc : Nat)
    (palette : Option gdiPalette) (flags : CopyFlags) : Bool × Mem :=
  let dstByte := FreeRDPGetBytesPerPixel DstFormat
  let srcByte := FreeRDPGetBytesPerPixel SrcFormat
  if nHeight > 0x7FFFFFFF ∨ nWidth > 0x7FFFFFFF then (false, m)
  else if pDst = 0 ∨ pSrc = 0 then (false, m)
  else if nWidth = 0 ∨ nHeight = 0 then (true, m)
  else
    let nDstStep := if nDstStep0 = 0 then nWidth * FreeRDPGetBytesPerPixel DstFormat
      else nDstStep0
    let nSrcStep := if nSrcStep0 = 0 then nWidth * FreeRDPGetBytesPerPixel SrcFormat
      else nSrcStep0
    if overlapping pDst nXDst nYDst nDstStep dstByte pSrc nXSrc nYSrc nSrcStep srcByte
        nWidth nHeight then
      freerdp_image_copy_overlap m pDst DstFormat nDstStep nXDst nYDst nWidth nHeight
        pSrc SrcFormat nSrcStep nXSrc nYSrc palette flags
    else
      freerdp_image_copy_no_overlap backend m pDst DstFormat nDstStep nXDst nYDst nWidth
        nHeight pSrc SrcFormat nSrcStep nXSrc nYSrc palette flags

/-- Row-replication loop of `freerdp_image_fill` (color.c lines 904-908):
rows `1..nHeight-1` are copied from the first written row with a raw byte
copy. -/
def fillCopyRows (nDstStep nXDst nYDst bppv nWidth : Nat) (firstOff : Int) :
    Nat → Nat → Mem → Mem
  | 0, _, m => m
  | k + 1, y, m =>
      fillCopyRows nDstStep nXDst nYDst bppv nWidth firstOff k (y + 1)
        (memcpyBytes m (((y + nYDst) * nDstStep + nXDst * bppv : Nat) : Int) firstOff
          (nWidth * bppv))

/-- `freerdp_image_fill` (color.c lines 883-911): writes the first row
pixel by pixel via the codec, then replicates it to the remaining rows.
Always returns `TRUE`; the returned value is the final memory.  Note the
zero-stride resolution uses `(nXDst + nWidth) * bytesPerPixel`. -/
def freerdp_image_fill (m : Mem) (DstFormat : PixelFormat)
    (nDstStep0 nXDst nYDst nWidth nHeight : Nat) (color : Nat) : Mem :=
  if nWidth = 0 ∨ nHeight = 0 then m
  else
    let bppv := FreeRDPGetBytesPerPixel DstFormat
    let nDstStep := if nDstStep0 = 0 then (nXDst + nWidth) * FreeRDPGetBytesPerPixel DstFormat
      else nDstStep0
    let pFirstDstLine : Nat := nYDst * nDstStep
    let pFirstDstLineXOffset : Nat := pFirstDstLine + nXDst * bppv
    let m1 := pixelRowWrite DstFormat
      (fun x => ((pFirstDstLine + (x + nXDst) * bppv : Nat) : Int)) (fun _ => color)
      nWidth 0 m
    fillCopyRows nDstStep nXDst nYDst bppv nWidth ((pFirstDstLineXOffset : Nat) : Int)
      (nHeight - 1) 1 m1

/-- Big-endian multi-byte read from an offset-indexed read-only buffer
(same byte pattern as `FreeRDPReadColor_int`, for `WINPR_RESTRICT` source
masks). -/
def readBytesBE_N (src : Nat → Nat) (off : Nat) : Nat → Nat
  | 0 => 0
  | k + 1 => byte (src off) * 2 ^ (8 * k) + readBytesBE_N src (off + 1) k

/-- Modelled from the spec: `FreeRDPReadColor_int` over an offset-indexed
read-only buffer. -/
def FreeRDPReadColorN (src : Nat → Nat) (off : Nat) (format : PixelFormat) : Nat :=
  readBytesBE_N src off (FreeRDPGetBytesPerPixel format)

/-- Inner pixel loop of `freerdp_image_copy_from_pointer_data_xbpp`
(color.c lines 443-495): reads the XOR color in the depth-specific format,
normalizes it through `ARGB32`, applies the AND-mask black/white special
cases, converts to the destination format and writes.  Arguments after
`palette`: remaining pixel count, current `x`, destination address, XOR
byte offset, AND cursor. -/
def pointerXbppRow (DstFormat : PixelFormat) (y : Nat) (xorMask : Nat → Nat)
    (andMaskOpt : Option (Nat → Nat)) (xorBpp xorBytesPerPixel : Nat)
    (palette : Option gdiPalette) : Nat → Nat → Nat → Nat → Nat → Nat → Mem → Mem
  | 0, _, _, _, _, _, m => m
  | w + 1, x, pDst, xorOff, andIdx, andBit, m =>
      let pf : PixelFormat × Nat :=
        if xorBpp = 32 then (.BGRA32, FreeRDPReadColorN xorMask xorOff .BGRA32)
        else if xorBpp = 16 then (.RGB15, FreeRDPReadColorN xorMask xorOff .RGB15)
        else if xorBpp = 8 then
          match palette with
          | some p => (p.format, p.palette (xorMask xorOff))
          | none => (.BGR24, 0)
        else (.BGR24, FreeRDPReadColorN xorMask xorOff .BGR24)
      let xorPixel1 := FreeRDPConvertColor pf.2 pf.1 .ARGB32 palette
      let andPixel : Nat :=
        match andMaskOpt with
        | some am => if am andIdx &&& andBit ≠ 0 then 1 else 0
        | none => 0
      let andIdx2 :=
        match andMaskOpt with
        | some _ => if andBit >>> 1 = 0 then andIdx + 1 else andIdx
        | none => andIdx
      let andBit2 :=
        match andMaskOpt with
        | some _ => if andBit >>> 1 = 0 then 0x80 else andBit >>> 1
        | none => andBit
      let xorPixel2 :=
        if andPixel ≠ 0 then
          if xorPixel1 = 0xFF000000 then 0x00000000
          else if xorPixel1 = 0xFFFFFFFF then
            freerdp_image_inverted_pointer_color x y .ARGB32
          else xorPixel1
        else xorPixel1
      let color := FreeRDPConvertColor xorPixel2 .ARGB32 DstFormat palette
      pointerXbppRow DstFormat y xorMask andMaskOpt xorBpp xorBytesPerPixel palette w
        (x + 1) (pDst + FreeRDPGetBytesPerPixel DstFormat) (xorOff + xorBytesPerPixel)
        andIdx2 andBit2 (FreeRDPWriteColor_int m (pDst : Int) DstFormat color)

/-- Outer row loop of `freerdp_image_copy_from_pointer_data_xbpp`
(color.c lines 420-496): rows are read bottom-up (`vFlip` true for every
depth other than 1). -/
def pointerXbppRows (DstFormat : PixelFormat) (nDstStep nXDst nYDst : Nat)
    (xorMask : Nat → Nat) (andMaskOpt : Option (Nat → Nat))
    (xorStep andStep nWidth nHeight xorBpp xorBytesPerPixel : Nat)
    (palette : Option gdiPalette) (vFlip : Bool) : Nat → Nat → Mem → Mem
  | 0, _, m => m
  | h + 1, y, m =>
      pointerXbppRows DstFormat nDstStep nXDst nYDst xorMask andMaskOpt xorStep andStep
        nWidth nHeight xorBpp xorBytesPerPixel palette vFlip h (y + 1)
        (pointerXbppRow DstFormat y xorMask andMaskOpt xorBpp xorBytesPerPixel palette
          nWidth 0 ((nYDst + y) * nDstStep + nXDst * FreeRDPGetBytesPerPixel DstFormat)
          (if vFlip then xorStep * (nHeight - y - 1) else xorStep * y)
          (if vFlip then andStep * (nHeight - y - 1) else andStep * y) 0x80 m)

/-- `freerdp_image_copy_from_pointer_data_xbpp` (color.c lines 377-499).
A missing AND mask is `none`; the XOR mask null check is represented by its
length check. -/
def freerdp_image_copy_from_pointer_data_xbpp (m : Mem) (DstFormat : PixelFormat)
    (nDstStep nXDst nYDst nWidth nHeight : Nat) (xorMask : Nat → Nat)
    (xorMaskLength : Nat) (andMaskOpt : Option (Nat → Nat)) (andMaskLength : Nat)
    (xorBpp : Nat) (palette : Option gdiPalette) : Bool × Mem :=
  let vFlip : Bool := if xorBpp = 1 then false else true
  let andStep0 := (nWidth + 7) / 8
  let andStep := andStep0 + andStep0 % 2
  if xorMaskLength = 0 then (false, m)
  else
    let xorBytesPerPixel := xorBpp >>> 3
    let xorStep0 := nWidth * xorBytesPerPixel
    let xorStep := xorStep0 + xorStep0 % 2
    if xorBpp = 8 ∧ palette.isNone = true then (false, m)
    else if xorStep * nHeight > xorMaskLength then (false, m)
    else if andMaskOpt.isSome ∧ andStep * nHeight > andMaskLength then (false, m)
    else
      (true, pointerXbppRows DstFormat nDstStep nXDst nYDst xorMask andMaskOpt xorStep
        andStep nWidth nHeight xorBpp xorBytesPerPixel palette vFlip nHeight 0 m)

/-- `freerdp_image_copy_from_pointer_data` (color.c lines 509-550):
resolves a zero destination stride to `bytesPerPixel * nWidth`, runs the
zero-fill pre-pass (`pointerZeroFillRows`), and dispatches on `xorBpp`.
The 1-bpp sub-path's null-AND-mask rejection is represented by the `none`
case of the optional AND mask. -/
def freerdp_image_copy_from_pointer_data (m : Mem) (DstFormat : PixelFormat)
    (nDstStep0 nXDst nYDst nWidth nHeight : Nat) (xorMask : Nat → Nat)
    (xorMaskLength : Nat) (andMaskOpt : Option (Nat → Nat)) (andMaskLength : Nat)
    (xorBpp : Nat) (palette : Option gdiPalette) : Bool × Mem :=
  let dstBytesPerPixel := FreeRDPGetBytesPerPixel DstFormat
  let nDstStep := if nDstStep0 = 0 then dstBytesPerPixel * nWidth else nDstStep0
  let m1 := pointerZeroFillRows nDstStep nXDst dstBytesPerPixel nWidth
    (nHeight - nYDst) nYDst m
  if xorBpp = 1 then
    match andMaskOpt with
    | none => (false, m1)
    | some andMask =>
        freerdp_image_copy_from_pointer_data_1bpp m1 DstFormat nDstStep nXDst nYDst
          nWidth nHeight xorMask xorMaskLength andMask andMaskLength xorBpp
  else if xorBpp = 8 ∨ xorBpp = 16 ∨ xorBpp = 24 ∨ xorBpp = 32 then
    freerdp_image_copy_from_pointer_data_xbpp m1 DstFormat nDstStep nXDst nYDst nWidth
      nHeight xorMask xorMaskLength andMaskOpt andMaskLength xorBpp palette
  else (false, m1)

/-- Claim C5 counterexample: `freerdp_image_fill` does NOT resolve a zero
stride to `nWidth * bytesPerPixel`: with `nXDst = 1`, width 1, height 2 on
`ARGB32`, a zero stride behaves as stride `(nXDst + nWidth) * 4 = 8`, so
byte 12 of the buffer (second row under stride 8) differs from the
tightly-packed-stride call (which writes bytes 8..11 instead). -/
theorem C5_counterexample :
    freerdp_image_fill (fun _ => 0) .ARGB32 0 1 0 1 2 0xFFFFFFFF 12 ≠
      freerdp_image_fill (fun _ => 0) .ARGB32
        (1 * FreeRDPGetBytesPerPixel .ARGB32) 1 0 1 2 0xFFFFFFFF 12 := by
  decide

/-- Claim C5 (amended): a zero stride is resolved before use, so the call
behaves exactly as if the resolved stride had been passed explicitly — for
`freerdp_image_copy` (destination and source strides) and
`freerdp_image_copy_from_pointer_data` the resolved stride is
`width * bytesPerPixel`, but for `freerdp_image_fill` it is
`(nXDst + nWidth) * bytesPerPixel`. -/
theorem C5_zero_stride_resolution :
    (∀ (backend : CopyNoOverlapBackend) (m : Mem) (pDst : Int) (DstFormat : PixelFormat)
      (nXDst nYDst nWidth nHeight : Nat) (pSrc : Int) (SrcFormat : PixelFormat)
      (nSrcStep nXSrc nYSrc : Nat) (palette : Option gdiPalette) (flags : CopyFlags),
      freerdp_image_copy backend m pDst DstFormat 0 nXDst nYDst nWidth nHeight pSrc
        SrcFormat nSrcStep nXSrc nYSrc palette flags =
      freerdp_image_copy backend m pDst DstFormat
        (nWidth * FreeRDPGetBytesPerPixel DstFormat) nXDst nYDst nWidth nHeight pSrc
        SrcFormat nSrcStep nXSrc nYSrc palette flags) ∧
    (∀ (backend : CopyNoOverlapBackend) (m : Mem) (pDst : Int) (DstFormat : PixelFormat)
      (nDstStep nXDst nYDst nWidth nHeight : Nat) (pSrc : Int) (SrcFormat : PixelFormat)
      (nXSrc nYSrc : Nat) (palette : Option gdiPalette) (flags : CopyFlags),
      freerdp_image_copy backend m pDst DstFormat nDstStep nXDst nYDst nWidth nHeight
        pSrc SrcFormat 0 nXSrc nYSrc palette flags =
      freerdp_image_copy backend m pDst DstFormat nDstStep nXDst nYDst nWidth nHeight
        pSrc SrcFormat (nWidth * FreeRDPGetBytesPerPixel SrcFormat) nXSrc nYSrc palette
        flags) ∧
    (∀ (m : Mem) (DstFormat : PixelFormat) (nXDst nYDst nWidth nHeight : Nat)
      (xorMask : Nat → Nat) (xorMaskLength : Nat) (andMaskOpt : Option (Nat → Nat))
      (andMaskLength xorBpp : Nat) (palette : Option gdiPalette),
      freerdp_image_copy_from_pointer_data m DstFormat 0 nXDst nYDst nWidth nHeight
        xorMask xorMaskLength andMaskOpt andMaskLength xorBpp palette =
      freerdp_image_copy_from_pointer_data m DstFormat
        (FreeRDPGetBytesPerPixel DstFormat * nWidth) nXDst nYDst nWidth nHeight xorMask
        xorMaskLength andMaskOpt andMaskLength xorBpp palette) ∧
    (∀ (m : Mem) (DstFormat : PixelFormat) (nXDst nYDst nWidth nHeight : Nat)
      (color : Nat),
      freerdp_image_fill m DstFormat 0 nXDst nYDst nWidth nHeight color =
      freerdp_image_fill m DstFormat
        ((nXDst + nWidth) * FreeRDPGetBytesPerPixel DstFormat) nXDst nYDst nWidth nHeight
        color) := by
  refine ⟨?_, ?_, ?_, ?_⟩
  · intro backend m pDst DstFormat nXDst nYDst nWidth nHeight pSrc SrcFormat nSrcStep
      nXSrc nYSrc palette flags
    unfold freerdp_image_copy
    simp only [eq_self_iff_true, if_true, ite_self]
  · intro backend m pDst DstFormat nDstStep nXDst nYDst nWidth nHeight pSrc SrcFormat
      nXSrc nYSrc palette flags
    unfold freerdp_image_copy
    simp only [eq_self_iff_true, if_true, ite_self]
  · intro m DstFormat nXDst nYDst nWidth nHeight xorMask xorMaskLength andMaskOpt
      andMaskLength xorBpp palette
    unfold freerdp_image_copy_from_pointer_data
    simp only [eq_self_iff_true, if_true, ite_self]
  · intro m DstFormat nXDst nYDst nWidth nHeight color
    unfold freerdp_image_fill
    simp only [eq_self_iff_true, if_true, ite_self]

/-! ### Claim C10: the generic keep-destination-alpha conversion loop -/

theorem row_separation4 (step nXDst nYDst w x y y' : Nat) (hx : x < w) (hyy : y < y')
    (hstep : w * 4 ≤ step) :
    (y + nYDst) * step + (x + nXDst) * 4 + 4 ≤ (y' + nYDst) * step + nXDst * 4 := by
  have h4 : (y + nYDst + 1) * step ≤ (y' + nYDst) * step :=
    Nat.mul_le_mul_right step (by omega)
  have h5 : (y + nYDst + 1) * step = (y + nYDst) * step + step := by ring
  omega

theorem writeIgnoreAlpha_read_congr (m₁ m₂ : Mem) (addr : Int) (F : PixelFormat) (c : Nat)
    (h : ∀ i : Int, addr ≤ i → i < addr + FreeRDPGetBytesPerPixel F → m₁ i = m₂ i) :
    FreeRDPReadColor_int (FreeRDPWriteColorIgnoreAlpha_int m₁ addr F c) addr F =
      FreeRDPReadColor_int (FreeRDPWriteColorIgnoreAlpha_int m₂ addr F c) addr F := by
  cases F <;> simp only [FreeRDPWriteColorIgnoreAlpha_int] <;>
    first
      | rw [FreeRDPReadColor_int_congr m₁ m₂ _ _ h, readColor_writeColor,
          readColor_writeColor]
      | rw [readColor_writeColor, readColor_writeColor]

theorem genericRowRest_frame (Src Dst : PixelFormat) (pal : Option gdiPalette)
    (srcLine dstLine : Int) (nXSrc nXDst : Nat) (w : Nat) :
    ∀ (x oldColor dstColor : Nat) (m : Mem) (i : Int),
      (∀ t, x ≤ t → t < x + w →
        i < dstLine + ((t + nXDst) * 4 : Nat) ∨
        dstLine + ((t + nXDst) * 4 : Nat) + FreeRDPGetBytesPerPixel Dst ≤ i) →
      genericRowRest Src Dst pal srcLine dstLine nXSrc nXDst w x oldColor dstColor m i =
        m i := by
  induction w with
  | zero => intro x o d m i _; rfl
  | succ k ih =>
    intro x o d m i h
    simp only [genericRowRest]
    split
    · rw [ih (x + 1) _ _ _ i fun t h1 h2 => h t (by omega) (by omega)]
      exact FreeRDPWriteColorIgnoreAlpha_int_frame _ _ _ _ i (h x (by omega) (by omega))
    · rw [ih (x + 1) _ _ _ i fun t h1 h2 => h t (by omega) (by omega)]
      exact FreeRDPWriteColorIgnoreAlpha_int_frame _ _ _ _ i (h x (by omega) (by omega))

theorem genericRow_frame (Src Dst : PixelFormat) (pal : Option gdiPalette)
    (srcLine dstLine : Int) (nXSrc nXDst w : Nat) (m : Mem) (i : Int) (hw : 1 ≤ w)
    (h : ∀ t, t < w →
      i < dstLine + ((t + nXDst) * 4 : Nat) ∨
      dstLine + ((t + nXDst) * 4 : Nat) + FreeRDPGetBytesPerPixel Dst ≤ i) :
    genericRow Src Dst pal srcLine dstLine nXSrc nXDst w m i = m i := by
  simp only [genericRow]
  rw [genericRowRest_frame Src Dst pal srcLine dstLine nXSrc nXDst (w - 1) 1 _ _ _ i
    fun t h1 h2 => h t (by omega)]
  have h0 := h 0 hw
  exact FreeRDPWriteColorIgnoreAlpha_int_frame _ _ _ _ i (by omega)

theorem genericRows_eq_rowsApply (Src Dst : PixelFormat) (pal : Option gdiPalette)
    (pSrc pDst : Int) (nSrcStep nDstStep nXSrc nXDst nYSrc nYDst nWidth : Nat)
    (sm so dm dof : Int) (h : Nat) :
    ∀ (y0 : Nat) (m : Mem),
      genericRows Src Dst pal pSrc pDst nSrcStep nDstStep nXSrc nXDst nYSrc nYDst nWidth
        sm so dm dof h y0 m =
      rowsApply
        (fun y mm => genericRow Src Dst pal
          (pSrc + sm * ((y + nYSrc : Nat) : Int) * nSrcStep + so)
          (pDst + dm * ((y + nYDst : Nat) : Int) * nDstStep + dof)
          nXSrc nXDst nWidth mm) h y0 m := by
  induction h with
  | zero => intro y0 m; rfl
  | succ k ih =>
    intro y0 m
    show genericRows Src Dst pal pSrc pDst nSrcStep nDstStep nXSrc nXDst nYSrc nYDst
      nWidth sm so dm dof k (y0 + 1) _ = _
    rw [ih (y0 + 1) _]
    rfl

theorem genericRowRest_read (Src Dst : PixelFormat) (pal : Option gdiPalette)
    (srcLine dstLine : Int) (nXSrc nXDst : Nat)
    (hS : FreeRDPGetBytesPerPixel Src = 4) (hD : FreeRDPGetBytesPerPixel Dst = 4)
    (w : Nat) :
    ∀ (x oldColor dstColor : Nat) (m : Mem) (j : Nat),
      dstColor = FreeRDPConvertColor oldColor Src Dst pal →
      x ≤ j → j < x + w →
      (∀ t u : Nat, x ≤ t → t < x + w → x ≤ u → u < x + w → ∀ i : Int,
        srcLine + ((t + nXSrc) * 4 : Nat) ≤ i →
        i < srcLine + ((t + nXSrc) * 4 : Nat) + 4 →
        ¬(dstLine + ((u + nXDst) * 4 : Nat) ≤ i ∧
          i < dstLine + ((u + nXDst) * 4 : Nat) + 4)) →
      FreeRDPReadColor_int
        (genericRowRest Src Dst pal srcLine dstLine nXSrc nXDst w x oldColor dstColor m)
        (dstLine + ((j + nXDst) * 4 : Nat)) Dst =
      FreeRDPReadColor_int
        (FreeRDPWriteColorIgnoreAlpha_int m (dstLine + ((j + nXDst) * 4 : Nat)) Dst
          (FreeRDPConvertColor
            (FreeRDPReadColor_int m (srcLine + ((j + nXSrc) * 4 : Nat)) Src) Src Dst pal))
        (dstLine + ((j + nXDst) * 4 : Nat)) Dst := by
  induction w with
  | zero => intro x o d m j _ h1 h2 _; omega
  | succ k ih =>
    intro x o d m j hinv h1 h2 hdisj
    simp only [genericRowRest]
    by_cases hc : FreeRDPReadColor_int m (srcLine + ((x + nXSrc) * 4 : Nat)) Src = o
    · rw [if_pos hc]
      rcases Nat.eq_or_lt_of_le h1 with heq | hlt
      · subst heq
        rw [FreeRDPReadColor_int_congr
          (genericRowRest Src Dst pal srcLine dstLine nXSrc nXDst k (x + 1) o d
            (FreeRDPWriteColorIgnoreAlpha_int m (dstLine + ((x + nXDst) * 4 : Nat)) Dst d))
          (FreeRDPWriteColorIgnoreAlpha_int m (dstLine + ((x + nXDst) * 4 : Nat)) Dst d)
          (dstLine + ((x + nXDst) * 4 : Nat)) Dst
          (fun i hi1 hi2 => genericRowRest_frame Src Dst pal srcLine dstLine nXSrc nXDst k
            (x + 1) o d _ i fun t ht1 ht2 => Or.inl (by omega))]
        rw [hc, hinv]
      · rw [ih (x + 1) o d _ j hinv (by omega) (by omega)
          fun t u a1 a2 a3 a4 => hdisj t u (by omega) (by omega) (by omega) (by omega)]
        have hsrc : FreeRDPReadColor_int
            (FreeRDPWriteColorIgnoreAlpha_int m (dstLine + ((x + nXDst) * 4 : Nat)) Dst d)
            (srcLine + ((j + nXSrc) * 4 : Nat)) Src =
            FreeRDPReadColor_int m (srcLine + ((j + nXSrc) * 4 : Nat)) Src :=
          FreeRDPReadColor_int_congr _ m _ Src fun i hi1 hi2 =>
            FreeRDPWriteColorIgnoreAlpha_int_frame m _ Dst d i (by
              have hg := hdisj j x (by omega) (by omega) (by omega) (by omega) i hi1
                (by omega)
              omega)
        rw [hsrc]
        exact writeIgnoreAlpha_read_congr _ m _ Dst _ fun i hi1 hi2 =>
          FreeRDPWriteColorIgnoreAlpha_int_frame m _ Dst d i (by omega)
    · rw [if_neg hc]
      rcases Nat.eq_or_lt_of_le h1 with heq | hlt
      · subst heq
        rw [FreeRDPReadColor_int_congr
          (genericRowRest Src Dst pal srcLine dstLine nXSrc nXDst k (x + 1)
            (FreeRDPReadColor_int m (srcLine + ((x + nXSrc) * 4 : Nat)) Src)
            (FreeRDPConvertColor
              (FreeRDPReadColor_int m (srcLine + ((x + nXSrc) * 4 : Nat)) Src) Src Dst pal)
            (FreeRDPWriteColorIgnoreAlpha_int m (dstLine + ((x + nXDst) * 4 : Nat)) Dst
              (FreeRDPConvertColor
                (FreeRDPReadColor_int m (srcLine + ((x + nXSrc) * 4 : Nat)) Src)
                Src Dst pal)))
          (FreeRDPWriteColorIgnoreAlpha_int m (dstLine + ((x + nXDst) * 4 : Nat)) Dst
            (FreeRDPConvertColor
              (FreeRDPReadColor_int m (srcLine + ((x + nXSrc) * 4 : Nat)) Src) Src Dst pal))
          (dstLine + ((x + nXDst) * 4 : Nat)) Dst
          (fun i hi1 hi2 => genericRowRest_frame Src Dst pal srcLine dstLine nXSrc nXDst k
            (x + 1) _ _ _ i fun t ht1 ht2 => Or.inl (by omega))]
      · rw [ih (x + 1)
          (FreeRDPReadColor_int m (srcLine + ((x + nXSrc) * 4 : Nat)) Src)
          (FreeRDPConvertColor
            (FreeRDPReadColor_int m (srcLine + ((x + nXSrc) * 4 : Nat)) Src) Src Dst pal)
          _ j rfl (by omega) (by omega)
          fun t u a1 a2 a3 a4 => hdisj t u (by omega) (by omega) (by omega) (by omega)]
        have hsrc : FreeRDPReadColor_int
            (FreeRDPWriteColorIgnoreAlpha_int m (dstLine + ((x + nXDst) * 4 : Nat)) Dst
              (FreeRDPConvertColor
                (FreeRDPReadColor_int m (srcLine + ((x + nXSrc) * 4 : Nat)) Src)
                Src Dst pal))
            (srcLine + ((j + nXSrc) * 4 : Nat)) Src =
            FreeRDPReadColor_int m (srcLine + ((j + nXSrc) * 4 : Nat)) Src :=
          FreeRDPReadColor_int_congr _ m _ Src fun i hi1 hi2 =>
            FreeRDPWriteColorIgnoreAlpha_int_frame m _ Dst _ i (by
              have hg := hdisj j x (by omega) (by omega) (by omega) (by omega) i hi1
                (by omega)
              omega)
        rw [hsrc]
        exact writeIgnoreAlpha_read_congr _ m _ Dst _ fun i hi1 hi2 =>
          FreeRDPWriteColorIgnoreAlpha_int_frame m _ Dst _ i (by omega)

theorem genericRow_read (Src Dst : PixelFormat) (pal : Option gdiPalette)
    (srcLine dstLine : Int) (nXSrc nXDst : Nat)
    (hS : FreeRDPGetBytesPerPixel Src = 4) (hD : FreeRDPGetBytesPerPixel Dst = 4)
    (w x : Nat) (hx : x < w) (m : Mem)
    (hdisj : ∀ t u : Nat, t < w → u < w → ∀ i : Int,
      srcLine + ((t + nXSrc) * 4 : Nat) ≤ i →
      i < srcLine + ((t + nXSrc) * 4 : Nat) + 4 →
      ¬(dstLine + ((u + nXDst) * 4 : Nat) ≤ i ∧
        i < dstLine + ((u + nXDst) * 4 : Nat) + 4)) :
    FreeRDPReadColor_int (genericRow Src Dst pal srcLine dstLine nXSrc nXDst w m)
      (dstLine + ((x + nXDst) * 4 : Nat)) Dst =
    FreeRDPReadColor_int
      (FreeRDPWriteColorIgnoreAlpha_int m (dstLine + ((x + nXDst) * 4 : Nat)) Dst
        (FreeRDPConvertColor
          (FreeRDPReadColor_int m (srcLine + ((x + nXSrc) * 4 : Nat)) Src) Src Dst pal))
      (dstLine + ((x + nXDst) * 4 : Nat)) Dst := by
  simp only [genericRow]
  rcases Nat.eq_zero_or_pos x with hx0 | hx1
  · subst hx0
    simp only [Nat.zero_add]
    rw [FreeRDPReadColor_int_congr
      (genericRowRest Src Dst pal srcLine dstLine nXSrc nXDst (w - 1) 1
        (FreeRDPReadColor_int m (srcLine + (nXSrc * 4 : Nat)) Src)
        (FreeRDPConvertColor
          (FreeRDPReadColor_int m (srcLine + (nXSrc * 4 : Nat)) Src) Src Dst pal)
        (FreeRDPWriteColorIgnoreAlpha_int m (dstLine + (nXDst * 4 : Nat)) Dst
          (FreeRDPConvertColor
            (FreeRDPReadColor_int m (srcLine + (nXSrc * 4 : Nat)) Src) Src Dst pal)))
      (FreeRDPWriteColorIgnoreAlpha_int m (dstLine + (nXDst * 4 : Nat)) Dst
        (FreeRDPConvertColor
          (FreeRDPReadColor_int m (srcLine + (nXSrc * 4 : Nat)) Src) Src Dst pal))
      (dstLine + (nXDst * 4 : Nat)) Dst
      (fun i hi1 hi2 => genericRowRest_frame Src Dst pal srcLine dstLine nXSrc nXDst
        (w - 1) 1 _ _ _ i fun t ht1 ht2 => Or.inl (by omega))]
  · have hres := genericRowRest_read Src Dst pal srcLine dstLine nXSrc nXDst hS hD (w - 1)
      1
      (FreeRDPReadColor_int m (srcLine + (nXSrc * 4 : Nat)) Src)
      (FreeRDPConvertColor
        (FreeRDPReadColor_int m (srcLine + (nXSrc * 4 : Nat)) Src) Src Dst pal)
      (FreeRDPWriteColorIgnoreAlpha_int m (dstLine + (nXDst * 4 : Nat)) Dst
        (FreeRDPConvertColor
          (FreeRDPReadColor_int m (srcLine + (nXSrc * 4 : Nat)) Src) Src Dst pal))
      x rfl hx1 (by omega)
      (fun t u a1 a2 a3 a4 => hdisj t u (by omega) (by omega))
    rw [hres]
    have hsrc : FreeRDPReadColor_int
        (FreeRDPWriteColorIgnoreAlpha_int m (dstLine + (nXDst * 4 : Nat)) Dst
          (FreeRDPConvertColor
            (FreeRDPReadColor_int m (srcLine + (nXSrc * 4 : Nat)) Src) Src Dst pal))
        (srcLine + ((x + nXSrc) * 4 : Nat)) Src =
        FreeRDPReadColor_int m (srcLine + ((x + nXSrc) * 4 : Nat)) Src :=
      FreeRDPReadColor_int_congr _ m _ Src fun i hi1 hi2 =>
        FreeRDPWriteColorIgnoreAlpha_int_frame m _ Dst _ i (by
          have hg := hdisj x 0 hx (by omega) i hi1 (by omega)
          omega)
    rw [hsrc]
    exact writeIgnoreAlpha_read_congr _ m _ Dst _ fun i hi1 hi2 =>
      FreeRDPWriteColorIgnoreAlpha_int_frame m _ Dst _ i (by omega)

theorem genericRows_read (Src Dst : PixelFormat) (pal : Option gdiPalette)
    (pSrc pDst : Int) (nSrcStep nDstStep nXSrc nXDst nYSrc nYDst nWidth nHeight : Nat)
    (hS : FreeRDPGetBytesPerPixel Src = 4) (hD : FreeRDPGetBytesPerPixel Dst = 4)
    (x y : Nat) (hx : x < nWidth) (hy : y < nHeight) (hstride : nWidth * 4 ≤ nDstStep)
    (m : Mem)
    (hdisj : ∀ ys xs yd xd : Nat, ys < nHeight → xs < nWidth → yd < nHeight →
      xd < nWidth → ∀ i : Int,
      pSrc + (((ys + nYSrc) * nSrcStep + (xs + nXSrc) * 4 : Nat) : Int) ≤ i →
      i < pSrc + (((ys + nYSrc) * nSrcStep + (xs + nXSrc) * 4 : Nat) : Int) + 4 →
      ¬(pDst + (((yd + nYDst) * nDstStep + (xd + nXDst) * 4 : Nat) : Int) ≤ i ∧
        i < pDst + (((yd + nYDst) * nDstStep + (xd + nXDst) * 4 : Nat) : Int) + 4)) :
    FreeRDPReadColor_int
      (genericRows Src Dst pal pSrc pDst nSrcStep nDstStep nXSrc nXDst nYSrc nYDst
        nWidth 1 0 1 0 nHeight 0 m)
      (pDst + (((y + nYDst) * nDstStep + (x + nXDst) * 4 : Nat) : Int)) Dst =
    FreeRDPReadColor_int
      (FreeRDPWriteColorIgnoreAlpha_int m
        (pDst + (((y + nYDst) * nDstStep + (x + nXDst) * 4 : Nat) : Int)) Dst
        (FreeRDPConvertColor
          (FreeRDPReadColor_int m
            (pSrc + (((y + nYSrc) * nSrcStep + (x + nXSrc) * 4 : Nat) : Int)) Src)
          Src Dst pal))
      (pDst + (((y + nYDst) * nDstStep + (x + nXDst) * 4 : Nat) : Int)) Dst := by
  have ea : pDst + (((y + nYDst) * nDstStep + (x + nXDst) * 4 : Nat) : Int) =
      pDst + (((y + nYDst) * nDstStep : Nat) : Int) + (((x + nXDst) * 4 : Nat) : Int) := by
    push_cast; ring
  have es : pSrc + (((y + nYSrc) * nSrcStep + (x + nXSrc) * 4 : Nat) : Int) =
      pSrc + (((y + nYSrc) * nSrcStep : Nat) : Int) + (((x + nXSrc) * 4 : Nat) : Int) := by
    push_cast; ring
  rw [ea, es]
  rw [genericRows_eq_rowsApply Src Dst pal pSrc pDst nSrcStep nDstStep nXSrc nXDst nYSrc
    nYDst nWidth 1 0 1 0 nHeight 0 m]
  have hfn : (fun (yy : Nat) (mm : Mem) => genericRow Src Dst pal
        (pSrc + 1 * ((yy + nYSrc : Nat) : Int) * nSrcStep + 0)
        (pDst + 1 * ((yy + nYDst : Nat) : Int) * nDstStep + 0) nXSrc nXDst nWidth mm) =
      (fun (yy : Nat) (mm : Mem) => genericRow Src Dst pal
        (pSrc + (((yy + nYSrc) * nSrcStep : Nat) : Int))
        (pDst + (((yy + nYDst) * nDstStep : Nat) : Int)) nXSrc nXDst nWidth mm) := by
    funext yy mm
    have e1 : pSrc + 1 * ((yy + nYSrc : Nat) : Int) * (nSrcStep : Int) + 0 =
        pSrc + (((yy + nYSrc) * nSrcStep : Nat) : Int) := by push_cast; ring
    have e2 : pDst + 1 * ((yy + nYDst : Nat) : Int) * (nDstStep : Int) + 0 =
        pDst + (((yy + nYDst) * nDstStep : Nat) : Int) := by push_cast; ring
    rw [e1, e2]
  rw [hfn]
  show readBytesBE
    (rowsApply
      (fun (yy : Nat) (mm : Mem) => genericRow Src Dst pal
        (pSrc + (((yy + nYSrc) * nSrcStep : Nat) : Int))
        (pDst + (((yy + nYDst) * nDstStep : Nat) : Int)) nXSrc nXDst nWidth mm)
      nHeight 0 m)
    (pDst + (((y + nYDst) * nDstStep : Nat) : Int) + (((x + nXDst) * 4 : Nat) : Int))
    (FreeRDPGetBytesPerPixel Dst) = _
  have hframe2 : ∀ (yy : Nat) (mm : Mem) (i : Int),
      (∀ u, u < nWidth →
        i < pDst + (((yy + nYDst) * nDstStep : Nat) : Int) + ((u + nXDst) * 4 : Nat) ∨
        pDst + (((yy + nYDst) * nDstStep : Nat) : Int) + ((u + nXDst) * 4 : Nat) +
          FreeRDPGetBytesPerPixel Dst ≤ i) →
      genericRow Src Dst pal (pSrc + (((yy + nYSrc) * nSrcStep : Nat) : Int))
        (pDst + (((yy + nYDst) * nDstStep : Nat) : Int)) nXSrc nXDst nWidth mm i = mm i :=
    fun yy mm i hout => genericRow_frame Src Dst pal
      (pSrc + (((yy + nYSrc) * nSrcStep : Nat) : Int))
      (pDst + (((yy + nYDst) * nDstStep : Nat) : Int)) nXSrc nXDst nWidth mm i
      (by omega) hout
  rw [rowsApply_read
    (fun (yy : Nat) (mm : Mem) => genericRow Src Dst pal
      (pSrc + (((yy + nYSrc) * nSrcStep : Nat) : Int))
      (pDst + (((yy + nYDst) * nDstStep : Nat) : Int)) nXSrc nXDst nWidth mm)
    (fun (yy : Nat) (i : Int) => ∀ u, u < nWidth →
      i < pDst + (((yy + nYDst) * nDstStep : Nat) : Int) + ((u + nXDst) * 4 : Nat) ∨
      pDst + (((yy + nYDst) * nDstStep : Nat) : Int) + ((u + nXDst) * 4 : Nat) +
        FreeRDPGetBytesPerPixel Dst ≤ i)
    hframe2
    (pDst + (((y + nYDst) * nDstStep : Nat) : Int) + (((x + nXDst) * 4 : Nat) : Int))
    (FreeRDPGetBytesPerPixel Dst) y nHeight 0 m (Nat.zero_le y) (by omega)
    (fun y' hy1 hy2 i hi1 hi2 u hu => Or.inl (by
      have hsep := row_separation4 nDstStep nXDst nYDst nWidth x y y' hx hy1 hstride
      omega))]
  rw [Nat.sub_zero]
  have hM1 : ∀ i : Int,
      pSrc + (((y + nYSrc) * nSrcStep : Nat) : Int) + (((x + nXSrc) * 4 : Nat) : Int) ≤ i →
      i < pSrc + (((y + nYSrc) * nSrcStep : Nat) : Int) + (((x + nXSrc) * 4 : Nat) : Int) +
        FreeRDPGetBytesPerPixel Src →
      rowsApply
        (fun (yy : Nat) (mm : Mem) => genericRow Src Dst pal
          (pSrc + (((yy + nYSrc) * nSrcStep : Nat) : Int))
          (pDst + (((yy + nYDst) * nDstStep : Nat) : Int)) nXSrc nXDst nWidth mm)
        y 0 m i = m i :=
    fun i hi1 hi2 => rowsApply_frame
      (fun (yy : Nat) (mm : Mem) => genericRow Src Dst pal
        (pSrc + (((yy + nYSrc) * nSrcStep : Nat) : Int))
        (pDst + (((yy + nYDst) * nDstStep : Nat) : Int)) nXSrc nXDst nWidth mm)
      (fun (yy : Nat) (i : Int) => ∀ u, u < nWidth →
        i < pDst + (((yy + nYDst) * nDstStep : Nat) : Int) + ((u + nXDst) * 4 : Nat) ∨
        pDst + (((yy + nYDst) * nDstStep : Nat) : Int) + ((u + nXDst) * 4 : Nat) +
          FreeRDPGetBytesPerPixel Dst ≤ i)
      hframe2 y 0 m i
      (fun y' ha1 ha2 u hu => by
        have hg := hdisj y x y' u hy hx (by omega) hu i (by omega) (by omega)
        omega)
  have hM2 : ∀ i : Int,
      pDst + (((y + nYDst) * nDstStep : Nat) : Int) + (((x + nXDst) * 4 : Nat) : Int) ≤ i →
      i < pDst + (((y + nYDst) * nDstStep : Nat) : Int) + (((x + nXDst) * 4 : Nat) : Int) +
        FreeRDPGetBytesPerPixel Dst →
      rowsApply
        (fun (yy : Nat) (mm : Mem) => genericRow Src Dst pal
          (pSrc + (((yy + nYSrc) * nSrcStep : Nat) : Int))
          (pDst + (((yy + nYDst) * nDstStep : Nat) : Int)) nXSrc nXDst nWidth mm)
        y 0 m i = m i :=
    fun i hi1 hi2 => rowsApply_frame
      (fun (yy : Nat) (mm : Mem) => genericRow Src Dst pal
        (pSrc + (((yy + nYSrc) * nSrcStep : Nat) : Int))
        (pDst + (((yy + nYDst) * nDstStep : Nat) : Int)) nXSrc nXDst nWidth mm)
      (fun (yy : Nat) (i : Int) => ∀ u, u < nWidth →
        i < pDst + (((yy + nYDst) * nDstStep : Nat) : Int) + ((u + nXDst) * 4 : Nat) ∨
        pDst + (((yy + nYDst) * nDstStep : Nat) : Int) + ((u + nXDst) * 4 : Nat) +
          FreeRDPGetBytesPerPixel Dst ≤ i)
      hframe2 y 0 m i
      (fun y' ha1 ha2 u hu => by
        have hsep := row_separation4 nDstStep nXDst nYDst nWidth u y' y hu (by omega)
          hstride
        omega)
  have h1 : FreeRDPReadColor_int
      (rowsApply
        (fun (yy : Nat) (mm : Mem) => genericRow Src Dst pal
          (pSrc + (((yy + nYSrc) * nSrcStep : Nat) : Int))
          (pDst + (((yy + nYDst) * nDstStep : Nat) : Int)) nXSrc nXDst nWidth mm)
        y 0 m)
      (pSrc + (((y + nYSrc) * nSrcStep : Nat) : Int) + (((x + nXSrc) * 4 : Nat) : Int))
      Src =
      FreeRDPReadColor_int m
        (pSrc + (((y + nYSrc) * nSrcStep : Nat) : Int) + (((x + nXSrc) * 4 : Nat) : Int))
        Src :=
    FreeRDPReadColor_int_congr _ m _ Src fun i hi1 hi2 => hM1 i hi1 hi2
  have hrow := genericRow_read Src Dst pal
    (pSrc + (((y + nYSrc) * nSrcStep : Nat) : Int))
    (pDst + (((y + nYDst) * nDstStep : Nat) : Int)) nXSrc nXDst hS hD nWidth x hx
    (rowsApply
      (fun (yy : Nat) (mm : Mem) => genericRow Src Dst pal
        (pSrc + (((yy + nYSrc) * nSrcStep : Nat) : Int))
        (pDst + (((yy + nYDst) * nDstStep : Nat) : Int)) nXSrc nXDst nWidth mm)
      y 0 m)
    (fun t u ht hu i hi1 hi2 => by
      have hg := hdisj y t y u hy ht hy hu i (by omega) (by omega)
      omega)
  rw [h1] at hrow
  exact hrow.trans (writeIgnoreAlpha_read_congr _ m _ Dst _ fun i hi1 hi2 => hM2 i hi1 hi2)

/-- Claim C10: the generic per-pixel conversion loop reached through the
keep-destination-alpha copy path addresses both source and destination
pixels at fixed 4-byte offsets (`(x + nXSrc) * 4` and `(x + nXDst) * 4`,
baked into `genericRowRest`/`genericRow`), independent of the formats'
actual bytes-per-pixel.  (1) Every source format other than the dedicated
`BGR24`/`BGRX32`/`BGRA32` fast paths makes
`freerdp_image_copy_no_overlap_dst_alpha` fall back to
`freerdp_image_copy_generic`; (2) when both formats ARE 4 bytes per pixel
the fallback is a correct per-pixel converter: under the stride invariant
and source/destination disjointness, every destination pixel of the final
memory reads back exactly as if the converted source pixel had been written
there with `FreeRDPWriteColorIgnoreAlpha_int`; (3) it is NOT correct for a
2-byte-per-pixel source: a concrete `RGB16 -> ARGB32` copy leaves
destination pixel (1,0) differing from the correctly-addressed conversion
of source pixel (1,0). -/
theorem C10_generic_fixed4_addressing :
    (∀ (m : Mem) (pDst : Int) (DstFormat : PixelFormat)
      (nDstStep nXDst nYDst nWidth nHeight : Nat) (pSrc : Int) (SrcFormat : PixelFormat)
      (nSrcStep nXSrc nYSrc : Nat) (pal : Option gdiPalette) (sm so dm dof : Int),
      SrcFormat ≠ .BGR24 → SrcFormat ≠ .BGRX32 → SrcFormat ≠ .BGRA32 →
      freerdp_image_copy_no_overlap_dst_alpha m pDst DstFormat nDstStep nXDst nYDst
        nWidth nHeight pSrc SrcFormat nSrcStep nXSrc nYSrc pal sm so dm dof =
      freerdp_image_copy_generic m pDst DstFormat nDstStep nXDst nYDst nWidth nHeight
        pSrc SrcFormat nSrcStep nXSrc nYSrc pal sm so dm dof) ∧
    (∀ (m : Mem) (pDst pSrc : Int) (DstFormat SrcFormat : PixelFormat)
      (nDstStep nXDst nYDst nWidth nHeight nSrcStep nXSrc nYSrc : Nat)
      (pal : Option gdiPalette) (x y : Nat),
      FreeRDPGetBytesPerPixel SrcFormat = 4 → FreeRDPGetBytesPerPixel DstFormat = 4 →
      x < nWidth → y < nHeight → nWidth * 4 ≤ nDstStep →
      (∀ ys xs yd xd : Nat, ys < nHeight → xs < nWidth → yd < nHeight →
        xd < nWidth → ∀ i : Int,
        pSrc + (((ys + nYSrc) * nSrcStep + (xs + nXSrc) * 4 : Nat) : Int) ≤ i →
        i < pSrc + (((ys + nYSrc) * nSrcStep + (xs + nXSrc) * 4 : Nat) : Int) + 4 →
        ¬(pDst + (((yd + nYDst) * nDstStep + (xd + nXDst) * 4 : Nat) : Int) ≤ i ∧
          i < pDst + (((yd + nYDst) * nDstStep + (xd + nXDst) * 4 : Nat) : Int) + 4)) →
      FreeRDPReadColor_int
        (freerdp_image_copy_generic m pDst DstFormat nDstStep nXDst nYDst nWidth nHeight
          pSrc SrcFormat nSrcStep nXSrc nYSrc pal 1 0 1 0).2
        (pDst + (((y + nYDst) * nDstStep + (x + nXDst) * 4 : Nat) : Int)) DstFormat =
      FreeRDPReadColor_int
        (FreeRDPWriteColorIgnoreAlpha_int m
          (pDst + (((y + nYDst) * nDstStep + (x + nXDst) * 4 : Nat) : Int)) DstFormat
          (FreeRDPConvertColor
            (FreeRDPReadColor_int m
              (pSrc + (((y + nYSrc) * nSrcStep + (x + nXSrc) * 4 : Nat) : Int)) SrcFormat)
            SrcFormat DstFormat pal))
        (pDst + (((y + nYDst) * nDstStep + (x + nXDst) * 4 : Nat) : Int)) DstFormat) ∧
    (FreeRDPReadColor_int
      (freerdp_image_copy_generic (fun i => if i = 102 then 31 else 0) 0 .ARGB32 8 0 0 2
        1 100 .RGB16 4 0 0 none 1 0 1 0).2 4 .ARGB32 ≠
     FreeRDPReadColor_int
      (FreeRDPWriteColorIgnoreAlpha_int (fun i => if i = 102 then 31 else 0) 4 .ARGB32
        (FreeRDPConvertColor
          (FreeRDPReadColor_int (fun i => if i = 102 then 31 else 0) 102 .RGB16)
          .RGB16 .ARGB32 none)) 4 .ARGB32) := by
  refine ⟨?_, ?_, ?_⟩
  · intro m pDst DstFormat nDstStep nXDst nYDst nWidth nHeight pSrc SrcFormat nSrcStep
      nXSrc nYSrc pal sm so dm dof h1 h2 h3
    cases SrcFormat <;>
      first
        | rfl
        | exact absurd rfl h1
        | exact absurd rfl h2
        | exact absurd rfl h3
  · intro m pDst pSrc DstFormat SrcFormat nDstStep nXDst nYDst nWidth nHeight nSrcStep
      nXSrc nYSrc pal x y hS hD hx hy hstride hdisj
    exact genericRows_read SrcFormat DstFormat pal pSrc pDst nSrcStep nDstStep nXSrc
      nXDst nYSrc nYDst nWidth nHeight hS hD x y hx hy hstride m hdisj
  · decide

/-- Witness for C10: the dispatch conjunct at an `ARGB32` source (not one of
the fast-path formats) and the 4-bytes-per-pixel correctness conjunct at a
concrete 1x1 `ARGB32 -> BGRA32` copy with disjoint buffers. -/
theorem C10_generic_fixed4_addressing_witness :
    (freerdp_image_copy_no_overlap_dst_alpha (fun _ => 0) 0 .BGRA32 4 0 0 1 1 100
      .ARGB32 4 0 0 none 1 0 1 0 =
     freerdp_image_copy_generic (fun _ => 0) 0 .BGRA32 4 0 0 1 1 100 .ARGB32 4 0 0 none
      1 0 1 0) ∧
    FreeRDPReadColor_int
      (freerdp_image_copy_generic (fun _ => 0) 0 .BGRA32 4 0 0 1 1 100 .ARGB32 4 0 0
        none 1 0 1 0).2 0 .BGRA32 =
    FreeRDPReadColor_int
      (FreeRDPWriteColorIgnoreAlpha_int (fun _ => 0) 0 .BGRA32
        (FreeRDPConvertColor (FreeRDPReadColor_int (fun _ => 0) 100 .ARGB32) .ARGB32
          .BGRA32 none)) 0 .BGRA32 :=
  ⟨C10_generic_fixed4_addressing.1 (fun _ => 0) 0 .BGRA32 4 0 0 1 1 100 .ARGB32 4 0 0
    none 1 0 1 0 (by decide) (by decide) (by decide),
   C10_generic_fixed4_addressing.2.1 (fun _ => 0) 0 100 .BGRA32 .ARGB32 4 0 0 1 1 4 0 0
    none 0 0 rfl rfl (by decide) (by decide) (by decide)
    (by intro ys xs yd xd hys hxs hyd hxd i hi1 hi2; omega)⟩

end FreeRDPColor
